import Mathlib

/-!
# libesedb: file handle and IO handle

A shallow embedding of `libesedb/libesedb_file.c` and
`libesedb/libesedb_io_handle.c`, and theorems about them.

Conventions of the embedding.

* A C pointer that may be `NULL` is an `Option`; a pointer to a pointer
  (`libesedb_file_t **file`) is an `Option (Option _)`.
* A C function that returns `1`/`0`/`-1` and writes through its arguments
  becomes a function returning a record: the returned `int`, the objects it
  may have written, the error entries handed to `liberror_error_set` (in the
  order of the calls, the innermost failure first) and the operations it
  invoked on the file IO handle (the block IO provider), in order.
* `uint8_t` is `Fin 256`; `uint32_t` values are natural numbers below `2^32`;
  `size_t`/`size64_t` are 64 bit wide and unsigned, `off64_t` is 64 bit wide
  and signed (two's complement wrap-around is made explicit by `off64_t`).
* The heap is not modelled: `memory_allocate` and `memory_set` succeed.
* The preprocessor switch `HAVE_DEBUG_OUTPUT` is a boolean argument of the
  functions whose code depends on it.  `HAVE_VERBOSE_OUTPUT` only prints.
* The block IO provider (libbfio) is an external library.  A provider is
  described by the results it gives to the calls the code makes on it; the
  results of library calls that reach no provider are in `library_results`.
* The `while` loop of `libesedb_file_open_read` takes a fuel argument; the
  result `none` means that the fuel ran out before the loop ended.
-/

namespace Libesedb

/-! ## liberror -/

/-- The error domains used by the two source files. -/
inductive liberror_domain
  | ARGUMENTS_DOMAIN
  | INPUT_DOMAIN
  | IO_DOMAIN
  | MEMORY_DOMAIN
  | RUNTIME_DOMAIN
  deriving DecidableEq, Repr

/-- The error codes used by the two source files. -/
inductive liberror_code
  | ARGUMENT_ERROR_INVALID_VALUE
  | ARGUMENT_ERROR_UNSUPPORTED_VALUE
  | INPUT_ERROR_CRC_MISMATCH
  | IO_ERROR_OPEN_FAILED
  | IO_ERROR_CLOSE_FAILED
  | IO_ERROR_SEEK_FAILED
  | IO_ERROR_READ_FAILED
  | MEMORY_ERROR_INSUFFICIENT
  | MEMORY_ERROR_SET_FAILED
  | RUNTIME_ERROR_VALUE_ALREADY_SET
  | RUNTIME_ERROR_VALUE_MISSING
  | RUNTIME_ERROR_UNSUPPORTED_VALUE
  | RUNTIME_ERROR_INITIALIZE_FAILED
  | RUNTIME_ERROR_FINALIZE_FAILED
  | RUNTIME_ERROR_GET_FAILED
  | RUNTIME_ERROR_SET_FAILED
  | RUNTIME_ERROR_PRINT_FAILED
  deriving DecidableEq, Repr

/-- One call of `liberror_error_set`: domain, code, the message (with the
function name filled in) and the numeric values formatted into it. -/
structure liberror_entry where
  domain : liberror_domain
  code : liberror_code
  message : String
  arguments : List Nat
  deriving DecidableEq, Repr

/-! ## Constants of headers that are not part of the two source files -/

/-- Modelled from the spec: `LIBESEDB_FLAG_READ` of `libesedb_definitions.h`
(not under src/); the flags are "a bitset of {Read, Write}", Read is its
first bit. -/
def LIBESEDB_FLAG_READ : Int := 1

/-- Modelled from the spec: `LIBESEDB_FLAG_WRITE` of `libesedb_definitions.h`
(not under src/); the flags are "a bitset of {Read, Write}", Write is its
second bit. -/
def LIBESEDB_FLAG_WRITE : Int := 2

/-- Modelled from the spec: `LIBBFIO_FLAG_READ` of libbfio (not under src/),
the "read-only capability" the provider is opened with. -/
def LIBBFIO_FLAG_READ : Int := 1

/-- Modelled from the spec: the codepage constants of `libesedb/codepage.h`
(not under src/), the "enumerated allow-list {ASCII, Windows-1250, 1251,
1252, 1253, 1254, 1256, 1257, 1258}"; each is the number of its codepage. -/
def LIBESEDB_CODEPAGE_ASCII : Int := 20127

/-- Modelled from the spec: codepage Windows-1250, see `LIBESEDB_CODEPAGE_ASCII`. -/
def LIBESEDB_CODEPAGE_WINDOWS_1250 : Int := 1250

/-- Modelled from the spec: codepage Windows-1251, see `LIBESEDB_CODEPAGE_ASCII`. -/
def LIBESEDB_CODEPAGE_WINDOWS_1251 : Int := 1251

/-- Modelled from the spec: codepage Windows-1252, see `LIBESEDB_CODEPAGE_ASCII`. -/
def LIBESEDB_CODEPAGE_WINDOWS_1252 : Int := 1252

/-- Modelled from the spec: codepage Windows-1253, see `LIBESEDB_CODEPAGE_ASCII`. -/
def LIBESEDB_CODEPAGE_WINDOWS_1253 : Int := 1253

/-- Modelled from the spec: codepage Windows-1254, see `LIBESEDB_CODEPAGE_ASCII`. -/
def LIBESEDB_CODEPAGE_WINDOWS_1254 : Int := 1254

/-- Modelled from the spec: codepage Windows-1256, see `LIBESEDB_CODEPAGE_ASCII`. -/
def LIBESEDB_CODEPAGE_WINDOWS_1256 : Int := 1256

/-- Modelled from the spec: codepage Windows-1257, see `LIBESEDB_CODEPAGE_ASCII`. -/
def LIBESEDB_CODEPAGE_WINDOWS_1257 : Int := 1257

/-- Modelled from the spec: codepage Windows-1258, see `LIBESEDB_CODEPAGE_ASCII`. -/
def LIBESEDB_CODEPAGE_WINDOWS_1258 : Int := 1258

/-- The nine codepages of the allow-list. -/
def enumerated_codepages : List Int :=
  [LIBESEDB_CODEPAGE_ASCII, LIBESEDB_CODEPAGE_WINDOWS_1250, LIBESEDB_CODEPAGE_WINDOWS_1251,
   LIBESEDB_CODEPAGE_WINDOWS_1252, LIBESEDB_CODEPAGE_WINDOWS_1253, LIBESEDB_CODEPAGE_WINDOWS_1254,
   LIBESEDB_CODEPAGE_WINDOWS_1256, LIBESEDB_CODEPAGE_WINDOWS_1257, LIBESEDB_CODEPAGE_WINDOWS_1258]

/-! ## Bytes, words and the header layout -/

/-- A byte (`uint8_t`). -/
abbrev uint8_t := Fin 256

/-- The C operator `&` on `int`. -/
def bit_and (a b : Int) : Int := Int.land a b

/-- The `off64_t` value of an integer: two's complement, 64 bits. -/
def off64_t (x : Int) : Int :=
  (x + 9223372036854775808) % 18446744073709551616 - 9223372036854775808

/-- Modelled from the spec: the macro `endian_little_convert_32bit` of
`endian.h` (not under src/): the "little-endian u32" of four bytes. -/
def endian_little_convert_32bit (b0 b1 b2 b3 : uint8_t) : Nat :=
  b0.val + b1.val * 2 ^ 8 + b2.val * 2 ^ 16 + b3.val * 2 ^ 24

/-- The byte of a buffer at an index (a byte outside the buffer reads as 0). -/
def byte_at (data : List uint8_t) (i : Nat) : uint8_t := data.getD i 0

/-- The little-endian 32 bit field of a buffer that starts at `offset`. -/
def field_32bit (data : List uint8_t) (offset : Nat) : Nat :=
  endian_little_convert_32bit (byte_at data offset) (byte_at data (offset + 1))
    (byte_at data (offset + 2)) (byte_at data (offset + 3))

/-- Line 42: `esedb_file_signature`. -/
def esedb_file_signature : List uint8_t := [0xef, 0xcd, 0xab, 0x89]

/-- Modelled from the spec: the sizes of the fields of `esedb_file_header_t`
(`esedb_file_header.h` is not under src/), in the order of the file layout:
"Bytes [0,4): signature", "Bytes [4,8): checksum", then `format_version`,
`file_type`, 8-byte database_time, 28-byte database_signature,
`database_state`, 8-byte consistent_position, 8-byte consistent_time, 8-byte
attach_time, 8-byte attach_position, 8-byte detach_time, 8-byte
detach_position, 28-byte log_signature, two reserved u32 fields, 24-byte
backup descriptors x3, `last_object_identifier`, four index-update version
fields, `format_revision`, `page_size`, a 100-byte reserved region,
`creation_format_version`, `creation_format_revision`, a 320-byte reserved
region. -/
def esedb_file_header_fields : List (String × Nat) :=
  [("signature", 4), ("checksum", 4), ("format_version", 4), ("file_type", 4),
   ("database_time", 8), ("database_signature", 28), ("database_state", 4),
   ("consistent_postition", 8), ("consistent_time", 8), ("attach_time", 8),
   ("attach_postition", 8), ("detach_time", 8), ("detach_postition", 8),
   ("log_signature", 28), ("unknown4", 4), ("unknown5", 4),
   ("previous_full_backup", 24), ("previous_incremental_backup", 24),
   ("current_full_backup", 24), ("last_object_identifier", 4),
   ("index_update_major_version", 4), ("index_update_minor_version", 4),
   ("index_update_build_number", 4), ("index_update_service_pack_number", 4),
   ("format_revision", 4), ("page_size", 4), ("unknown7", 100),
   ("creation_format_version", 4), ("creation_format_revision", 4), ("unknown8", 320)]

/-- The offset of a field of `esedb_file_header_t`: the sum of the sizes of
the fields before it. -/
def esedb_file_header_offset (name : String) : List (String × Nat) → Nat
  | [] => 0
  | (n, size) :: rest => if n = name then 0 else size + esedb_file_header_offset name rest

/-- Offset of `( (esedb_file_header_t *) file_header_data )->signature`. -/
def offset_signature : Nat := esedb_file_header_offset "signature" esedb_file_header_fields

/-- Offset of `( (esedb_file_header_t *) file_header_data )->checksum`. -/
def offset_checksum : Nat := esedb_file_header_offset "checksum" esedb_file_header_fields

/-- Offset of `( (esedb_file_header_t *) file_header_data )->format_version`. -/
def offset_format_version : Nat :=
  esedb_file_header_offset "format_version" esedb_file_header_fields

/-- Offset of `( (esedb_file_header_t *) file_header_data )->format_revision`. -/
def offset_format_revision : Nat :=
  esedb_file_header_offset "format_revision" esedb_file_header_fields

/-- Offset of `( (esedb_file_header_t *) file_header_data )->page_size`. -/
def offset_page_size : Nat := esedb_file_header_offset "page_size" esedb_file_header_fields

/-- Modelled from the spec: `libesedb_checksum_calculate_little_endian_xor32`
of `libesedb_checksum.c` (not under src/), the spec's `calculate_xor32`: it
"folds the buffer as a sequence of little-endian 32-bit words via repeated
XOR, starting from `seed`; if `data` length is not a multiple of 4, the
trailing partial word is zero-padded". -/
def calculate_xor32 : List uint8_t → Nat → Nat
  | b0 :: b1 :: b2 :: b3 :: rest, seed =>
      calculate_xor32 rest (seed ^^^ endian_little_convert_32bit b0 b1 b2 b3)
  | [b0, b1, b2], seed => seed ^^^ endian_little_convert_32bit b0 b1 b2 0
  | [b0, b1], seed => seed ^^^ endian_little_convert_32bit b0 b1 0 0
  | [b0], seed => seed ^^^ endian_little_convert_32bit b0 0 0 0
  | [], seed => seed

/-- The C interface of `calculate_xor32`: the returned `int` (1, the call
has valid arguments) and the value stored in `*xor32`. -/
def libesedb_checksum_calculate_little_endian_xor32 (buffer : List uint8_t)
    (initial_value : Nat) : Int × Nat :=
  (1, calculate_xor32 buffer initial_value)

/-! ## The block IO provider -/

/-- An operation invoked on the file IO handle.  `page_read` stands for the
provider accesses of one call of `libesedb_page_read`. -/
inductive io_event
  | handle_open (flags : Int)
  | handle_close
  | handle_free
  | seek_offset (offset : Int)
  | read (size : Nat)
  | get_size
  | page_read (file_offset : Int) (page_size : Nat)
  deriving DecidableEq, Repr

/-- A file IO handle (`libbfio_handle_t`), described by the results of the
calls made on it.  `read_count` and `read_data` are the result of the read of
the header (the first read after the seek to offset 0): the returned count
and the bytes put into the buffer.  `page_read_result` is the value returned
by `libesedb_page_read` (`libesedb_page.c` is not part of the two source
files) for a file offset and a page size. -/
structure libbfio_handle_t where
  open_result : Int → Int
  close_result : Int
  free_result : Int
  seek_offset_result : Int → Int
  read_count : Int
  read_data : List uint8_t
  get_size_result : Int
  file_size : Nat
  page_read_result : Int → Nat → Int

/-- The results of the libbfio calls of `libesedb_file_open` that create the
file IO handle of a file name. -/
structure libbfio_file_t where
  file_initialize_result : Int
  set_track_offsets_read_result : Int
  set_name_result : String → Int
  handle : String → libbfio_handle_t

/-! ## The IO handle and the file -/

/-- The fields of `libesedb_io_handle_t` the code uses. -/
structure libesedb_io_handle_t where
  file_io_handle : Option libbfio_handle_t
  handle_created_in_library : Int
  format_version : Nat
  format_revision : Nat

/-- Modelled from the spec: the status tag of a PageEntry, "{Valid, Corrupt,
Truncated}" (the code has no such tag). -/
inductive page_status
  | Valid
  | Corrupt
  | Truncated
  deriving DecidableEq, Repr

/-- Modelled from the spec: the PageEntry record "{page_number: u32,
file_offset: u64, size: u32}" with its status tag (the entry type of the
page table, `libesedb_page.h`, is not under src/). -/
structure page_entry where
  page_number : Nat
  file_offset : Nat
  size : Nat
  status : page_status
  deriving DecidableEq, Repr

/-- The array type of the page table (`libesedb_array_type.h` is not under
src/): its entries, in order. -/
abbrev libesedb_array_t := List page_entry

/-- The fields of `libesedb_internal_file_t` the code uses. -/
structure libesedb_internal_file_t where
  page_table : Option libesedb_array_t
  io_handle : Option libesedb_io_handle_t
  ascii_codepage : Int
  abort : Int

/-- What a function leaves behind: the returned `int`, the object it worked
on, the error entries and the provider operations. -/
structure outcome (σ : Type) where
  value : Int
  state : σ
  error : List liberror_entry
  events : List io_event

/-- Lines 48-102: `libesedb_io_handle_initialize`. -/
def libesedb_io_handle_initialize (io_handle : Option (Option libesedb_io_handle_t)) :
    outcome (Option (Option libesedb_io_handle_t)) :=
  match io_handle with
  | none =>
      ⟨-1, none, [⟨.ARGUMENTS_DOMAIN, .ARGUMENT_ERROR_INVALID_VALUE,
        "libesedb_io_handle_initialize: invalid io handle.", []⟩], []⟩
  | some none =>
      ⟨1, some (some
        { file_io_handle := none, handle_created_in_library := 0,
          format_version := 0, format_revision := 0 }), [], []⟩
  | some (some h) => ⟨1, some (some h), [], []⟩

/-- Lines 153-211: `libesedb_io_handle_open`. -/
def libesedb_io_handle_open (io_handle : Option libesedb_io_handle_t)
    (file_io_handle : Option libbfio_handle_t) (flags : Int) :
    outcome (Option libesedb_io_handle_t) :=
  match io_handle with
  | none =>
      ⟨-1, none, [⟨.ARGUMENTS_DOMAIN, .ARGUMENT_ERROR_INVALID_VALUE,
        "libesedb_io_handle_open: invalid io handle.", []⟩], []⟩
  | some h =>
      match h.file_io_handle with
      | some _ =>
          ⟨-1, some h, [⟨.RUNTIME_DOMAIN, .RUNTIME_ERROR_VALUE_ALREADY_SET,
            "libesedb_io_handle_open: invalid io handle - file io handle already set.", []⟩], []⟩
      | none =>
          match file_io_handle with
          | none =>
              ⟨-1, some h, [⟨.ARGUMENTS_DOMAIN, .ARGUMENT_ERROR_INVALID_VALUE,
                "libesedb_io_handle_open: invalid file io handle.", []⟩], []⟩
          | some p =>
              let h1 := { h with file_io_handle := some p }
              if p.open_result flags ≠ 1 then
                ⟨-1, some h1, [⟨.IO_DOMAIN, .IO_ERROR_OPEN_FAILED,
                  "libesedb_io_handle_open: unable to open file io handle.", []⟩],
                  [.handle_open flags]⟩
              else
                ⟨1, some h1, [], [.handle_open flags]⟩

/-- What `libesedb_io_handle_read_file_header` leaves behind: the returned
`int`, the io handle, the caller's `*page_size`, the error entries and the
provider operations. -/
structure read_file_header_outcome where
  value : Int
  io_handle : Option libesedb_io_handle_t
  page_size : Option Nat
  error : List liberror_entry
  events : List io_event

/-- The 4096 byte buffer `file_header_data` after the read: the bytes the
provider supplied, filled up with zero bytes. -/
def file_header_data (p : libbfio_handle_t) : List uint8_t :=
  p.read_data.take 4096 ++ List.replicate (4096 - p.read_data.length) 0

/-- Lines 265-661: `libesedb_io_handle_read_file_header`.  The argument
`page_size` is the caller's variable (`none` for a `NULL` pointer). -/
def libesedb_io_handle_read_file_header (io_handle : Option libesedb_io_handle_t)
    (page_size : Option Nat) : read_file_header_outcome :=
  match io_handle with
  | none =>
      ⟨-1, none, page_size, [⟨.ARGUMENTS_DOMAIN, .ARGUMENT_ERROR_INVALID_VALUE,
        "libesedb_io_handle_read_file_header: invalid io handle.", []⟩], []⟩
  | some h =>
      match h.file_io_handle with
      | none =>
          ⟨-1, some h, page_size, [⟨.RUNTIME_DOMAIN, .RUNTIME_ERROR_VALUE_MISSING,
            "libesedb_io_handle_read_file_header: invalid io handle - missing file io handle.",
            []⟩], []⟩
      | some p =>
          match page_size with
          | none =>
              ⟨-1, some h, none, [⟨.ARGUMENTS_DOMAIN, .ARGUMENT_ERROR_INVALID_VALUE,
                "libesedb_io_handle_read_file_header: invalid page size.", []⟩], []⟩
          | some old_page_size =>
              if p.seek_offset_result 0 = -1 then
                ⟨-1, some h, some old_page_size, [⟨.IO_DOMAIN, .IO_ERROR_SEEK_FAILED,
                  "libesedb_io_handle_read_file_header: unable to seek file header offset: 0.",
                  [0]⟩], [.seek_offset 0]⟩
              else if p.read_count ≠ 4096 then
                ⟨-1, some h, some old_page_size, [⟨.IO_DOMAIN, .IO_ERROR_READ_FAILED,
                  "libesedb_io_handle_read_file_header: unable to read file header.", []⟩],
                  [.seek_offset 0, .read 4096]⟩
              else if ((file_header_data p).drop offset_signature).take 4
                  ≠ esedb_file_signature then
                ⟨-1, some h, some old_page_size, [⟨.RUNTIME_DOMAIN, .RUNTIME_ERROR_UNSUPPORTED_VALUE,
                  "libesedb_io_handle_read_file_header: unsupported file signature.", []⟩],
                  [.seek_offset 0, .read 4096]⟩
              else
                let checksum := libesedb_checksum_calculate_little_endian_xor32
                  ((file_header_data p).drop 4) 0x89abcdef
                if checksum.1 ≠ 1 then
                  ⟨-1, some h, some old_page_size, [⟨.RUNTIME_DOMAIN, .RUNTIME_ERROR_UNSUPPORTED_VALUE,
                    "libesedb_io_handle_read_file_header: unable to calculate XOR-32 checksum.",
                    []⟩], [.seek_offset 0, .read 4096]⟩
                else
                  let calculated_xor32_checksum := checksum.2
                  let stored_xor32_checksum := field_32bit (file_header_data p) offset_checksum
                  if stored_xor32_checksum ≠ calculated_xor32_checksum then
                    ⟨-1, some h, some old_page_size, [⟨.INPUT_DOMAIN, .INPUT_ERROR_CRC_MISMATCH,
                      "libesedb_io_handle_read_file_header: mismatch in file header checksum.",
                      [stored_xor32_checksum, calculated_xor32_checksum]⟩],
                      [.seek_offset 0, .read 4096]⟩
                  else
                    ⟨1, some { h with
                        format_version := field_32bit (file_header_data p) offset_format_version
                        format_revision :=
                          field_32bit (file_header_data p) offset_format_revision },
                      some (field_32bit (file_header_data p) offset_page_size), [],
                      [.seek_offset 0, .read 4096]⟩

/-- Lines 45-138: `libesedb_file_initialize`.  `libesedb_array_initialize`
(not part of the two source files) creates the array with 0 entries. -/
def libesedb_file_initialize (file : Option (Option libesedb_internal_file_t)) :
    outcome (Option (Option libesedb_internal_file_t)) :=
  match file with
  | none =>
      ⟨-1, none, [⟨.ARGUMENTS_DOMAIN, .ARGUMENT_ERROR_INVALID_VALUE,
        "libesedb_file_initialize: invalid file.", []⟩], []⟩
  | some (some f) => ⟨1, some (some f), [], []⟩
  | some none =>
      let internal_file : libesedb_internal_file_t :=
        { page_table := none, io_handle := none, ascii_codepage := 0, abort := 0 }
      let internal_file := { internal_file with page_table := some [] }
      let r := libesedb_io_handle_initialize (some internal_file.io_handle)
      if r.value ≠ 1 then
        ⟨-1, some none, r.error ++ [⟨.RUNTIME_DOMAIN, .RUNTIME_ERROR_INITIALIZE_FAILED,
          "libesedb_file_initialize: unable to initialize io handle.", []⟩], r.events⟩
      else
        let internal_file := { internal_file with io_handle := r.state.getD none }
        let internal_file :=
          { internal_file with ascii_codepage := LIBESEDB_CODEPAGE_WINDOWS_1250 }
        ⟨1, some (some internal_file), [], r.events⟩

/-- Lines 703-724: the `while` loop of `libesedb_file_open_read`, started at
`file_offset` with the provider operations `events` made so far.  It gives
the value the loop leaves the function with (-1), or 1 when the loop ends,
and the provider operations; `none` when the fuel runs out. -/
def libesedb_file_open_read_loop (p : libbfio_handle_t) (page_size : Nat) (file_size : Nat) :
    Nat → Int → List io_event → Option (Int × List io_event)
  | 0, _, _ => none
  | fuel + 1, file_offset, events =>
      if file_offset < off64_t file_size then
        if p.page_read_result file_offset page_size ≠ 1 then
          some (-1, events ++ [.page_read file_offset page_size])
        else
          libesedb_file_open_read_loop p page_size file_size fuel
            (off64_t (file_offset + page_size))
            (events ++ [.page_read file_offset page_size])
      else
        some (1, events)

/-- Lines 633-727: `libesedb_file_open_read`.  `debug` is
`HAVE_DEBUG_OUTPUT`; `fuel` bounds the iterations of the loop. -/
def libesedb_file_open_read (debug : Bool) (fuel : Nat)
    (internal_file : Option libesedb_internal_file_t) :
    Option (outcome (Option libesedb_internal_file_t)) :=
  match internal_file with
  | none =>
      some ⟨-1, none, [⟨.ARGUMENTS_DOMAIN, .ARGUMENT_ERROR_INVALID_VALUE,
        "libesedb_file_open_read: invalid internal file.", []⟩], []⟩
  | some f =>
      match f.io_handle with
      | none =>
          some ⟨-1, some f, [⟨.RUNTIME_DOMAIN, .RUNTIME_ERROR_VALUE_MISSING,
            "libesedb_file_open_read: invalid internal file - missing io handle.", []⟩], []⟩
      | some h =>
          let r := libesedb_io_handle_read_file_header (some h) (some 0)
          let f1 := { f with io_handle := r.io_handle }
          if r.value ≠ 1 then
            some ⟨-1, some f1, r.error ++ [⟨.IO_DOMAIN, .IO_ERROR_READ_FAILED,
              "libesedb_file_open_read: unable to read file header.", []⟩], r.events⟩
          else
            let page_size := r.page_size.getD 0
            if debug then
              match h.file_io_handle with
              | none => some ⟨-1, some f1, [], r.events⟩
              | some p =>
                  if p.get_size_result ≠ 1 then
                    some ⟨-1, some f1, [⟨.RUNTIME_DOMAIN, .RUNTIME_ERROR_GET_FAILED,
                      "libesedb_file_open_read: unable to retrieve file size.", []⟩],
                      r.events ++ [.get_size]⟩
                  else
                    match libesedb_file_open_read_loop p page_size p.file_size fuel
                        (off64_t ((2 * page_size) % 2 ^ 64)) (r.events ++ [.get_size]) with
                    | none => none
                    | some (value, events) =>
                        if value ≠ 1 then
                          some ⟨-1, some f1, [⟨.IO_DOMAIN, .IO_ERROR_READ_FAILED,
                            "libesedb_file_open_read: unable to read page.", []⟩], events⟩
                        else
                          some ⟨1, some f1, [], events⟩
            else
              some ⟨1, some f1, [], r.events⟩

/-- Lines 487-577: `libesedb_file_open_file_io_handle`. -/
def libesedb_file_open_file_io_handle (debug : Bool) (fuel : Nat)
    (file : Option libesedb_internal_file_t) (file_io_handle : Option libbfio_handle_t)
    (flags : Int) : Option (outcome (Option libesedb_internal_file_t)) :=
  match file with
  | none =>
      some ⟨-1, none, [⟨.ARGUMENTS_DOMAIN, .ARGUMENT_ERROR_INVALID_VALUE,
        "libesedb_file_open_file_io_handle: invalid file.", []⟩], []⟩
  | some f =>
      match file_io_handle with
      | none =>
          some ⟨-1, some f, [⟨.ARGUMENTS_DOMAIN, .ARGUMENT_ERROR_INVALID_VALUE,
            "libesedb_file_open_file_io_handle: invalid file io handle.", []⟩], []⟩
      | some p =>
          if (bit_and flags LIBESEDB_FLAG_READ) ≠ LIBESEDB_FLAG_READ
              ∧ (bit_and flags LIBESEDB_FLAG_WRITE) ≠ LIBESEDB_FLAG_WRITE then
            some ⟨-1, some f, [⟨.ARGUMENTS_DOMAIN, .ARGUMENT_ERROR_UNSUPPORTED_VALUE,
              "libesedb_file_open_file_io_handle: unsupported flags.", []⟩], []⟩
          else if (bit_and flags LIBESEDB_FLAG_WRITE) = LIBESEDB_FLAG_WRITE then
            some ⟨-1, some f, [⟨.ARGUMENTS_DOMAIN, .ARGUMENT_ERROR_UNSUPPORTED_VALUE,
              "libesedb_file_open_file_io_handle: write access to personal folder files currently not supported.",
              []⟩], []⟩
          else
            let file_io_flags : Int :=
              if (bit_and flags LIBESEDB_FLAG_READ) = LIBESEDB_FLAG_READ then LIBBFIO_FLAG_READ else 0
            let r := libesedb_io_handle_open f.io_handle (some p) file_io_flags
            let f1 := { f with io_handle := r.state }
            if r.value ≠ 1 then
              some ⟨-1, some f1, r.error ++ [⟨.IO_DOMAIN, .IO_ERROR_OPEN_FAILED,
                "libesedb_file_open_file_io_handle: unable to open file handle.", []⟩], r.events⟩
            else
              match libesedb_file_open_read debug fuel (some f1) with
              | none => none
              | some r2 =>
                  if r2.value ≠ 1 then
                    some ⟨-1, r2.state, r.error ++ r2.error ++ [⟨.IO_DOMAIN, .IO_ERROR_READ_FAILED,
                      "libesedb_file_open_file_io_handle: unable to read from file handle.", []⟩],
                      r.events ++ r2.events⟩
                  else
                    some ⟨1, r2.state, [], r.events ++ r2.events⟩

/-- Lines 231-352: `libesedb_file_open`.  `bfio` gives the results of the
libbfio calls that create the file IO handle of the file name. -/
def libesedb_file_open (debug : Bool) (fuel : Nat) (bfio : libbfio_file_t)
    (file : Option libesedb_internal_file_t) (filename : Option String) (flags : Int) :
    Option (outcome (Option libesedb_internal_file_t)) :=
  match file with
  | none =>
      some ⟨-1, none, [⟨.ARGUMENTS_DOMAIN, .ARGUMENT_ERROR_INVALID_VALUE,
        "libesedb_file_open: invalid file.", []⟩], []⟩
  | some f =>
      match filename with
      | none =>
          some ⟨-1, some f, [⟨.ARGUMENTS_DOMAIN, .ARGUMENT_ERROR_INVALID_VALUE,
            "libesedb_file_open: invalid filename.", []⟩], []⟩
      | some name =>
          if (bit_and flags LIBESEDB_FLAG_READ) ≠ LIBESEDB_FLAG_READ
              ∧ (bit_and flags LIBESEDB_FLAG_WRITE) ≠ LIBESEDB_FLAG_WRITE then
            some ⟨-1, some f, [⟨.ARGUMENTS_DOMAIN, .ARGUMENT_ERROR_UNSUPPORTED_VALUE,
              "libesedb_file_open: unsupported flags.", []⟩], []⟩
          else if (bit_and flags LIBESEDB_FLAG_WRITE) = LIBESEDB_FLAG_WRITE then
            some ⟨-1, some f, [⟨.ARGUMENTS_DOMAIN, .ARGUMENT_ERROR_UNSUPPORTED_VALUE,
              "libesedb_file_open: write access to Extensible Storage Engine Database files currently not supported.",
              []⟩], []⟩
          else if bfio.file_initialize_result ≠ 1 then
            some ⟨-1, some f, [⟨.RUNTIME_DOMAIN, .RUNTIME_ERROR_INITIALIZE_FAILED,
              "libesedb_file_open: unable to initialize file io handle.", []⟩], []⟩
          else if debug ∧ bfio.set_track_offsets_read_result ≠ 1 then
            some ⟨-1, some f, [⟨.RUNTIME_DOMAIN, .RUNTIME_ERROR_SET_FAILED,
              "libesedb_file_open: unable to set track offsets read in file io handle.", []⟩], []⟩
          else if bfio.set_name_result name ≠ 1 then
            some ⟨-1, some f, [⟨.RUNTIME_DOMAIN, .RUNTIME_ERROR_SET_FAILED,
              "libesedb_file_open: unable to set filename in file io handle.", []⟩], []⟩
          else
            match libesedb_file_open_file_io_handle debug fuel (some f)
                (some (bfio.handle name)) flags with
            | none => none
            | some r =>
                if r.value ≠ 1 then
                  some ⟨-1, r.state, r.error ++ [⟨.IO_DOMAIN, .IO_ERROR_OPEN_FAILED,
                    "libesedb_file_open: unable to open file.", []⟩], r.events⟩
                else
                  let created := fun (h : libesedb_io_handle_t) =>
                    { h with handle_created_in_library := 1 }
                  some ⟨1, r.state.map (fun f2 => { f2 with io_handle := f2.io_handle.map created }),
                    [], r.events⟩

/-- Lines 732-767: `libesedb_file_get_ascii_codepage`.  The argument
`ascii_codepage` is the caller's variable (`none` for a `NULL` pointer); the
state of the outcome is the file and the caller's variable. -/
def libesedb_file_get_ascii_codepage (file : Option libesedb_internal_file_t)
    (ascii_codepage : Option Int) : outcome (Option libesedb_internal_file_t × Option Int) :=
  match file with
  | none =>
      ⟨-1, (none, ascii_codepage), [⟨.ARGUMENTS_DOMAIN, .ARGUMENT_ERROR_INVALID_VALUE,
        "libesedb_file_get_ascii_codepage: invalid file.", []⟩], []⟩
  | some f =>
      match ascii_codepage with
      | none =>
          ⟨-1, (some f, none), [⟨.ARGUMENTS_DOMAIN, .ARGUMENT_ERROR_INVALID_VALUE,
            "libesedb_file_get_ascii_codepage: invalid ASCII codepage.", []⟩], []⟩
      | some _ => ⟨1, (some f, some f.ascii_codepage), [], []⟩

/-- Lines 772-815: `libesedb_file_set_ascii_codepage`. -/
def libesedb_file_set_ascii_codepage (file : Option libesedb_internal_file_t)
    (ascii_codepage : Int) : outcome (Option libesedb_internal_file_t) :=
  match file with
  | none =>
      ⟨-1, none, [⟨.ARGUMENTS_DOMAIN, .ARGUMENT_ERROR_INVALID_VALUE,
        "libesedb_file_set_ascii_codepage: invalid file.", []⟩], []⟩
  | some f =>
      if ascii_codepage ≠ LIBESEDB_CODEPAGE_ASCII
          ∨ ascii_codepage ≠ LIBESEDB_CODEPAGE_WINDOWS_1250
          ∨ ascii_codepage ≠ LIBESEDB_CODEPAGE_WINDOWS_1251
          ∨ ascii_codepage ≠ LIBESEDB_CODEPAGE_WINDOWS_1252
          ∨ ascii_codepage ≠ LIBESEDB_CODEPAGE_WINDOWS_1253
          ∨ ascii_codepage ≠ LIBESEDB_CODEPAGE_WINDOWS_1254
          ∨ ascii_codepage ≠ LIBESEDB_CODEPAGE_WINDOWS_1256
          ∨ ascii_codepage ≠ LIBESEDB_CODEPAGE_WINDOWS_1257
          ∨ ascii_codepage ≠ LIBESEDB_CODEPAGE_WINDOWS_1258 then
        ⟨-1, some f, [⟨.ARGUMENTS_DOMAIN, .ARGUMENT_ERROR_UNSUPPORTED_VALUE,
          "libesedb_file_set_ascii_codepage: unsupported ASCII codepage.", []⟩], []⟩
      else
        ⟨1, some { f with ascii_codepage := ascii_codepage }, [], []⟩

/-- The results of the calls of `libesedb_io_handle_close` and
`libesedb_file_free` that do not go to a bound provider and whose code is not
part of the two source files: `libesedb_debug_print_read_offsets` (called in
the debug build only), `libbfio_handle_close` when it is handed a `NULL`
handle, and `libesedb_array_free` on the page table. -/
structure library_results where
  print_read_offsets_result : Int
  close_null_result : Int
  array_free_result : Int

/-- Lines 107-148: `libesedb_io_handle_free`.  The `&&` of line 127-131 is
evaluated left to right: the provider is freed only when
`handle_created_in_library` is not 0 and a provider is bound. -/
def libesedb_io_handle_free (io_handle : Option (Option libesedb_io_handle_t)) :
    outcome (Option (Option libesedb_io_handle_t)) :=
  match io_handle with
  | none =>
      ⟨-1, none, [⟨.ARGUMENTS_DOMAIN, .ARGUMENT_ERROR_INVALID_VALUE,
        "libesedb_io_handle_free: invalid io handle.", []⟩], []⟩
  | some none => ⟨1, some none, [], []⟩
  | some (some h) =>
      if h.handle_created_in_library ≠ 0 then
        match h.file_io_handle with
        | none => ⟨1, some none, [], []⟩
        | some p =>
            if p.free_result ≠ 1 then
              ⟨-1, some none, [⟨.RUNTIME_DOMAIN, .RUNTIME_ERROR_FINALIZE_FAILED,
                "libesedb_io_handle_free: unable to free file io handle.", []⟩], [.handle_free]⟩
            else
              ⟨1, some none, [], [.handle_free]⟩
      else
        ⟨1, some none, [], []⟩

/-- Lines 216-260: `libesedb_io_handle_close`.  `debug` is
`HAVE_DEBUG_OUTPUT`.  The value of `libbfio_handle_close` is the provider's
`close_result`, or `close_null_result` when no provider is bound (the call is
then made with a `NULL` handle and reaches no provider). -/
def libesedb_io_handle_close (debug : Bool) (lib : library_results)
    (io_handle : Option libesedb_io_handle_t) : outcome (Option libesedb_io_handle_t) :=
  match io_handle with
  | none =>
      ⟨-1, none, [⟨.ARGUMENTS_DOMAIN, .ARGUMENT_ERROR_INVALID_VALUE,
        "libesedb_io_handle_close: invalid io handle.", []⟩], []⟩
  | some h =>
      let print_error : List liberror_entry :=
        if debug ∧ lib.print_read_offsets_result ≠ 1 then
          [⟨.RUNTIME_DOMAIN, .RUNTIME_ERROR_PRINT_FAILED,
            "libesedb_io_handle_close: unable to print the read offsets.", []⟩]
        else []
      match h.file_io_handle with
      | none =>
          if lib.close_null_result ≠ 0 then
            ⟨-1, some h, print_error ++ [⟨.IO_DOMAIN, .IO_ERROR_CLOSE_FAILED,
              "libesedb_io_handle_close: unable to close file io handle.", []⟩], []⟩
          else
            ⟨0, some h, print_error, []⟩
      | some p =>
          if p.close_result ≠ 0 then
            ⟨-1, some h, print_error ++ [⟨.IO_DOMAIN, .IO_ERROR_CLOSE_FAILED,
              "libesedb_io_handle_close: unable to close file io handle.", []⟩], [.handle_close]⟩
          else
            ⟨0, some h, print_error, [.handle_close]⟩

/-- Lines 143-201: `libesedb_file_free`. -/
def libesedb_file_free (lib : library_results)
    (file : Option (Option libesedb_internal_file_t)) :
    outcome (Option (Option libesedb_internal_file_t)) :=
  match file with
  | none =>
      ⟨-1, none, [⟨.ARGUMENTS_DOMAIN, .ARGUMENT_ERROR_INVALID_VALUE,
        "libesedb_file_free: invalid file.", []⟩], []⟩
  | some none => ⟨1, some none, [], []⟩
  | some (some f) =>
      let array_error : List liberror_entry :=
        if lib.array_free_result ≠ 1 then
          [⟨.RUNTIME_DOMAIN, .RUNTIME_ERROR_FINALIZE_FAILED,
            "libesedb_file_free: unable to free page table.", []⟩]
        else []
      let result : Int := if lib.array_free_result ≠ 1 then -1 else 1
      match f.io_handle with
      | none => ⟨result, some none, array_error, []⟩
      | some h =>
          let r := libesedb_io_handle_free (some (some h))
          if r.value ≠ 1 then
            ⟨-1, some none, array_error ++ r.error ++ [⟨.RUNTIME_DOMAIN,
              .RUNTIME_ERROR_FINALIZE_FAILED,
              "libesedb_file_free: unable to free io handle.", []⟩], r.events⟩
          else
            ⟨result, some none, array_error, r.events⟩

/-- Lines 206-226: `libesedb_file_signal_abort`. -/
def libesedb_file_signal_abort (file : Option libesedb_internal_file_t) :
    outcome (Option libesedb_internal_file_t) :=
  match file with
  | none =>
      ⟨-1, none, [⟨.ARGUMENTS_DOMAIN, .ARGUMENT_ERROR_INVALID_VALUE,
        "libesedb_file_signal_abort: invalid file.", []⟩], []⟩
  | some f => ⟨1, some { f with abort := 1 }, [], []⟩

/-- Lines 582-628: `libesedb_file_close`. -/
def libesedb_file_close (debug : Bool) (lib : library_results)
    (file : Option libesedb_internal_file_t) : outcome (Option libesedb_internal_file_t) :=
  match file with
  | none =>
      ⟨-1, none, [⟨.ARGUMENTS_DOMAIN, .ARGUMENT_ERROR_INVALID_VALUE,
        "libesedb_file_close: invalid file.", []⟩], []⟩
  | some f =>
      match f.io_handle with
      | none =>
          ⟨-1, some f, [⟨.RUNTIME_DOMAIN, .RUNTIME_ERROR_VALUE_MISSING,
            "libesedb_file_close: invalid file - missing io handle.", []⟩], []⟩
      | some h =>
          let r := libesedb_io_handle_close debug lib (some h)
          let f1 := { f with io_handle := r.state }
          if r.value ≠ 0 then
            ⟨r.value, some f1, r.error ++ [⟨.IO_DOMAIN, .IO_ERROR_CLOSE_FAILED,
              "libesedb_file_close: unable to close io handle.", []⟩], r.events⟩
          else
            ⟨r.value, some f1, r.error, r.events⟩

/-! ## Providers used in examples -/

/-- A provider over a file with the given content on which every call
succeeds: the read of the header returns the bytes there are (at most 4096),
every page can be read. -/
def file_provider (content : List uint8_t) : libbfio_handle_t :=
  { open_result := fun _ => 1
    close_result := 0
    free_result := 1
    seek_offset_result := fun offset => offset
    read_count := Int.ofNat (min 4096 content.length)
    read_data := content.take 4096
    get_size_result := 1
    file_size := content.length
    page_read_result := fun _ _ => 1 }

/-! ## Definitions used to state the theorems -/

/-- The C operator `|` on `int`. -/
def bit_or (a b : Int) : Int := Int.lor a b

/-- The domain and code of each error entry. -/
def error_kinds (error : List liberror_entry) : List (liberror_domain × liberror_code) :=
  error.map (fun e => (e.domain, e.code))

/-- The file handle `libesedb_file_initialize` creates in an empty slot. -/
def initialized_file : Option libesedb_internal_file_t :=
  Option.getD ( libesedb_file_initialize (some none)).state none

/-- An io handle as `libesedb_io_handle_initialize` creates it, bound to a provider. -/
def bound_io_handle (p : libbfio_handle_t) : libesedb_io_handle_t :=
  { file_io_handle := some p, handle_created_in_library := 0,
    format_version := 0, format_revision := 0 }

/-- The conditions on the provider under which lines 322-436 of
`libesedb_io_handle_read_file_header` do not return: the seek does not give
-1, the read gives 4096, the signature compares equal and the stored
checksum equals the calculated one. -/
def header_accepted (p : libbfio_handle_t) : Prop :=
  p.seek_offset_result 0 ≠ -1 ∧ p.read_count = 4096
    ∧ (file_header_data p).take 4 = esedb_file_signature
    ∧ field_32bit (file_header_data p) 4
        = calculate_xor32 ((file_header_data p).drop 4) 0x89abcdef

instance (p : libbfio_handle_t) : Decidable (header_accepted p) := by
  unfold header_accepted
  infer_instance

/-- The buffer with bit `j` of byte `i` flipped. -/
def flip_bit (data : List uint8_t) (i : Nat) (j : Fin 8) : List uint8_t :=
  data.set i (Fin.ofNat ((byte_at data i).val ^^^ 2 ^ j.val))

/-- The provider whose header read gives the buffer of `p` with bit `j` of
byte `i` flipped. -/
def flip_header_bit (p : libbfio_handle_t) (i : Nat) (j : Fin 8) : libbfio_handle_t :=
  { p with read_data := flip_bit (file_header_data p) i j }

/-- The four bytes of a 32 bit value, least significant first. -/
def uint32_bytes (w : Nat) : List uint8_t :=
  [Fin.ofNat w, Fin.ofNat (w / 2 ^ 8), Fin.ofNat (w / 2 ^ 16), Fin.ofNat (w / 2 ^ 24)]

/-- A 4096 byte header with the signature, the given checksum field, format
version, format revision and page size, and zero bytes elsewhere. -/
def header_of (checksum format_version format_revision page_size : Nat) : List uint8_t :=
  esedb_file_signature ++ (uint32_bytes checksum ++ (uint32_bytes format_version ++
    (List.replicate (4 * 55) 0 ++ (uint32_bytes format_revision ++
      (uint32_bytes page_size ++ List.replicate (4 * 964) 0)))))

/-- A header whose format version is chosen so that the words of bytes
[8, 4096) fold to the seed. -/
def valid_header (checksum format_revision page_size : Nat) : List uint8_t :=
  header_of checksum ((0x89abcdef ^^^ format_revision) ^^^ page_size) format_revision page_size

/-- The supported page sizes the spec names. -/
def supported_page_sizes : List Nat := [2048, 4096, 8192, 16384, 32768]

/-- The page reads of a walk over `n` pages that starts at `off`. -/
def page_reads (off : Int) (page_size n : Nat) : List io_event :=
  (List.range n).map
    (fun (m : Nat) => io_event.page_read (off + (m : Int) * (page_size : Int)) page_size)

/-- The file after `libesedb_io_handle_read_file_header` has accepted the
header of the provider `p` bound in its io handle `h`: the format version and
revision of the header are stored in the io handle. -/
def file_after_header (f : libesedb_internal_file_t) (h : libesedb_io_handle_t)
    (p : libbfio_handle_t) : libesedb_internal_file_t :=
  { f with io_handle := some { h with
      format_version := field_32bit (file_header_data p) 8
      format_revision := field_32bit (file_header_data p) 232 } }

/-- The page size `libesedb_io_handle_read_file_header` returns for the
header of the provider. -/
def header_page_size (p : libbfio_handle_t) : Nat := field_32bit (file_header_data p) 236

/-- A 4096 byte header whose first byte is not the first byte of the
signature. -/
def bad_signature_header : List uint8_t := [0x00, 0xcd, 0xab, 0x89] ++ List.replicate (4 * 1023) 0

/-- The initialized file after `libesedb_io_handle_open` has bound the
provider `p` in its io handle. -/
def file_bound_to (p : libbfio_handle_t) : libesedb_internal_file_t :=
  { page_table := some [], io_handle := some (bound_io_handle p),
    ascii_codepage := LIBESEDB_CODEPAGE_WINDOWS_1250, abort := 0 }

/-- A database file of 12288 bytes: a valid header with page size 4096 in
the first 4096 bytes, zero bytes up to offset 8192, and one page of zero
bytes at offset 8192. -/
def example_database : List uint8_t := valid_header 0 0 4096 ++ List.replicate (4 * 2048) 0

/-- A provider over a file of 16384 bytes with a valid header with page size
4096 and two pages, at the offsets 8192 and 12288, on which the read of the
page at offset 8192 fails. -/
def failing_page_provider : libbfio_handle_t :=
  { file_provider (valid_header 0 0 4096 ++ List.replicate (4 * 3072) 0) with
    page_read_result := fun file_offset _ => if file_offset = 8192 then -1 else 1 }

/-- A concrete choice of the results of the library calls: printing the read
offsets succeeds, `libbfio_handle_close` rejects a NULL handle with -1, and
the page table is freed. -/
def example_library_results : library_results :=
  { print_read_offsets_result := 1, close_null_result := -1, array_free_result := 1 }

/-- The outcome of the open of the initialized file over `example_database`
in the build without debug output. -/
def example_opened : outcome (Option libesedb_internal_file_t) :=
  ⟨1, some (file_after_header (file_bound_to (file_provider example_database))
      (bound_io_handle (file_provider example_database)) (file_provider example_database)),
    [], [.handle_open LIBBFIO_FLAG_READ, .seek_offset 0, .read 4096]⟩

/-- The number of the `n` with `2 * page_size + n * page_size < file_size`,
for a page size other than 0. -/
def page_count (page_size file_size : Nat) : Nat :=
  (file_size - 2 * page_size + (page_size - 1)) / page_size

/-- A provider over a file with a valid header with page size 4096 that
reports the file size 2^63. -/
def huge_file_provider : libbfio_handle_t :=
  { file_provider (valid_header 0 0 4096) with file_size := 9223372036854775808 }

/-- A database file of 12292 bytes: a valid header with page size 4096, a
page at offset 8192 and 4 more bytes at offset 12288. -/
def partial_page_database : List uint8_t :=
  valid_header 0 0 4096 ++ List.replicate (4 * 2049) 0

/-! ## Lemmas -/

theorem endian_little_convert_32bit_lt (b0 b1 b2 b3 : uint8_t) :
    endian_little_convert_32bit b0 b1 b2 b3 < 2 ^ 32 := by
  unfold endian_little_convert_32bit
  omega

theorem endian_little_convert_32bit_inj (a0 a1 a2 a3 b0 b1 b2 b3 : uint8_t)
    (h : endian_little_convert_32bit a0 a1 a2 a3 = endian_little_convert_32bit b0 b1 b2 b3) :
    a0 = b0 ∧ a1 = b1 ∧ a2 = b2 ∧ a3 = b3 := by
  unfold endian_little_convert_32bit at h
  refine ⟨Fin.ext ?_, Fin.ext ?_, Fin.ext ?_, Fin.ext ?_⟩ <;> omega

theorem calculate_xor32_xor (l : List uint8_t) (t : Nat) :
    ∀ s, calculate_xor32 l (s ^^^ t) = s ^^^ calculate_xor32 l t := by
  induction l, t using calculate_xor32.induct with
  | case1 b0 b1 b2 b3 rest seed ih =>
      intro s
      rw [calculate_xor32, calculate_xor32, Nat.xor_assoc, ih]
  | case2 b0 b1 b2 seed => intro s; simp [calculate_xor32, Nat.xor_assoc]
  | case3 b0 b1 seed => intro s; simp [calculate_xor32, Nat.xor_assoc]
  | case4 b0 seed => intro s; simp [calculate_xor32, Nat.xor_assoc]
  | case5 seed => intro s; simp [calculate_xor32]

theorem calculate_xor32_seed (l : List uint8_t) (s : Nat) :
    calculate_xor32 l s = s ^^^ calculate_xor32 l 0 := by
  have h := calculate_xor32_xor l 0 s
  simpa using h

theorem calculate_xor32_seed_ne (l : List uint8_t) (s t : Nat) (h : s ≠ t) :
    calculate_xor32 l s ≠ calculate_xor32 l t := by
  rw [calculate_xor32_seed l s, calculate_xor32_seed l t]
  intro e
  exact h (Nat.xor_left_inj.mp e)

theorem calculate_xor32_set_ne (l : List uint8_t) (s : Nat) :
    ∀ (i : Nat) (v : uint8_t), i < l.length → v ≠ byte_at l i →
      calculate_xor32 (l.set i v) s ≠ calculate_xor32 l s := by
  induction l, s using calculate_xor32.induct with
  | case1 b0 b1 b2 b3 rest seed ih =>
      intro i v hi hv
      match i, hi, hv with
      | 0, _, hv =>
          simp only [List.set_cons_zero, calculate_xor32]
          apply calculate_xor32_seed_ne
          intro e
          have := endian_little_convert_32bit_inj _ _ _ _ _ _ _ _ (Nat.xor_right_injective e)
          exact hv (by simpa [byte_at] using this.1)
      | 1, _, hv =>
          simp only [List.set_cons_zero, List.set_cons_succ, calculate_xor32]
          apply calculate_xor32_seed_ne
          intro e
          have := endian_little_convert_32bit_inj _ _ _ _ _ _ _ _ (Nat.xor_right_injective e)
          exact hv (by simpa [byte_at] using this.2.1)
      | 2, _, hv =>
          simp only [List.set_cons_zero, List.set_cons_succ, calculate_xor32]
          apply calculate_xor32_seed_ne
          intro e
          have := endian_little_convert_32bit_inj _ _ _ _ _ _ _ _ (Nat.xor_right_injective e)
          exact hv (by simpa [byte_at] using this.2.2.1)
      | 3, _, hv =>
          simp only [List.set_cons_zero, List.set_cons_succ, calculate_xor32]
          apply calculate_xor32_seed_ne
          intro e
          have := endian_little_convert_32bit_inj _ _ _ _ _ _ _ _ (Nat.xor_right_injective e)
          exact hv (by simpa [byte_at] using this.2.2.2)
      | j + 4, hi, hv =>
          simp only [List.set_cons_succ, calculate_xor32]
          apply ih
          · simpa using hi
          · simpa [byte_at] using hv
  | case2 b0 b1 b2 seed =>
      intro i v hi hv
      match i, hi, hv with
      | 0, _, hv =>
          simp only [List.set_cons_zero, calculate_xor32]
          intro e
          have := endian_little_convert_32bit_inj _ _ _ _ _ _ _ _ (Nat.xor_right_injective e)
          exact hv (by simpa [byte_at] using this.1)
      | 1, _, hv =>
          simp only [List.set_cons_zero, List.set_cons_succ, calculate_xor32]
          intro e
          have := endian_little_convert_32bit_inj _ _ _ _ _ _ _ _ (Nat.xor_right_injective e)
          exact hv (by simpa [byte_at] using this.2.1)
      | 2, _, hv =>
          simp only [List.set_cons_zero, List.set_cons_succ, calculate_xor32]
          intro e
          have := endian_little_convert_32bit_inj _ _ _ _ _ _ _ _ (Nat.xor_right_injective e)
          exact hv (by simpa [byte_at] using this.2.2.1)
      | j + 3, hi, _ => simp at hi
  | case3 b0 b1 seed =>
      intro i v hi hv
      match i, hi, hv with
      | 0, _, hv =>
          simp only [List.set_cons_zero, calculate_xor32]
          intro e
          have := endian_little_convert_32bit_inj _ _ _ _ _ _ _ _ (Nat.xor_right_injective e)
          exact hv (by simpa [byte_at] using this.1)
      | 1, _, hv =>
          simp only [List.set_cons_zero, List.set_cons_succ, calculate_xor32]
          intro e
          have := endian_little_convert_32bit_inj _ _ _ _ _ _ _ _ (Nat.xor_right_injective e)
          exact hv (by simpa [byte_at] using this.2.1)
      | j + 2, hi, _ => simp at hi
  | case4 b0 seed =>
      intro i v hi hv
      match i, hi, hv with
      | 0, _, hv =>
          simp only [List.set_cons_zero, calculate_xor32]
          intro e
          have := endian_little_convert_32bit_inj _ _ _ _ _ _ _ _ (Nat.xor_right_injective e)
          exact hv (by simpa [byte_at] using this.1)
      | j + 1, hi, _ => simp at hi
  | case5 seed => intro i v hi; simp at hi

theorem calculate_xor32_replicate_zero (n : Nat) (l : List uint8_t) (s : Nat) :
    calculate_xor32 (List.replicate (4 * n) 0 ++ l) s = calculate_xor32 l s := by
  induction n with
  | zero => simp
  | succ k ih =>
      have e : List.replicate (4 * (k + 1)) (0 : uint8_t) ++ l
          = 0 :: 0 :: 0 :: 0 :: (List.replicate (4 * k) 0 ++ l) := by
        have : 4 * (k + 1) = (4 * k) + 1 + 1 + 1 + 1 := by ring
        rw [this]
        rfl
      have z : endian_little_convert_32bit 0 0 0 0 = 0 := by decide
      rw [e, calculate_xor32, z, Nat.xor_zero, ih]

theorem offset_signature_eq : offset_signature = 0 := by decide
theorem offset_checksum_eq : offset_checksum = 4 := by decide
theorem offset_format_version_eq : offset_format_version = 8 := by decide
theorem offset_format_revision_eq : offset_format_revision = 232 := by decide
theorem offset_page_size_eq : offset_page_size = 236 := by decide

theorem file_header_data_length (p : libbfio_handle_t) : (file_header_data p).length = 4096 := by
  unfold file_header_data
  rw [List.length_append, List.length_take, List.length_replicate]
  omega

theorem read_file_header_checks (h : libesedb_io_handle_t) (p : libbfio_handle_t)
    (old_page_size : Nat) (hp : h.file_io_handle = some p)
    (hseek : p.seek_offset_result 0 ≠ -1) (hread : p.read_count = 4096) :
    libesedb_io_handle_read_file_header (some h) (some old_page_size) =
      if (file_header_data p).take 4 ≠ esedb_file_signature then
        ⟨-1, some h, some old_page_size, [⟨.RUNTIME_DOMAIN, .RUNTIME_ERROR_UNSUPPORTED_VALUE,
          "libesedb_io_handle_read_file_header: unsupported file signature.", []⟩],
          [.seek_offset 0, .read 4096]⟩
      else if field_32bit (file_header_data p) 4
          ≠ calculate_xor32 ((file_header_data p).drop 4) 0x89abcdef then
        ⟨-1, some h, some old_page_size, [⟨.INPUT_DOMAIN, .INPUT_ERROR_CRC_MISMATCH,
          "libesedb_io_handle_read_file_header: mismatch in file header checksum.",
          [field_32bit (file_header_data p) 4,
           calculate_xor32 ((file_header_data p).drop 4) 0x89abcdef]⟩],
          [.seek_offset 0, .read 4096]⟩
      else
        ⟨1, some { h with
            format_version := field_32bit (file_header_data p) 8
            format_revision := field_32bit (file_header_data p) 232 },
          some (field_32bit (file_header_data p) 236), [], [.seek_offset 0, .read 4096]⟩ := by
  simp only [libesedb_io_handle_read_file_header, hp, hseek, hread,
    libesedb_checksum_calculate_little_endian_xor32, offset_signature_eq, offset_checksum_eq,
    offset_format_version_eq, offset_format_revision_eq, offset_page_size_eq, List.drop_zero]
  simp

theorem byte_at_eq_getElem (l : List uint8_t) (i : Nat) (h : i < l.length) :
    byte_at l i = l[i] := by
  unfold byte_at
  exact List.getD_eq_getElem l 0 h

theorem drop_four_eq (b : List uint8_t) (hb : 8 ≤ b.length) :
    b.drop 4 = byte_at b 4 :: byte_at b 5 :: byte_at b 6 :: byte_at b 7 :: b.drop 8 := by
  rw [List.drop_eq_getElem_cons (by omega : 4 < b.length),
    List.drop_eq_getElem_cons (by omega : 5 < b.length),
    List.drop_eq_getElem_cons (by omega : 6 < b.length),
    List.drop_eq_getElem_cons (by omega : 7 < b.length),
    byte_at_eq_getElem b 4 (by omega), byte_at_eq_getElem b 5 (by omega),
    byte_at_eq_getElem b 6 (by omega), byte_at_eq_getElem b 7 (by omega)]

/-- The stored checksum equals the calculated one exactly when the words of
bytes [8, 4096) fold to zero from the seed: the checksum field lies inside
the range it is calculated over. -/
theorem checksum_matches_iff (b : List uint8_t) (hb : 8 ≤ b.length) (seed : Nat) :
    field_32bit b 4 = calculate_xor32 (b.drop 4) seed ↔ calculate_xor32 (b.drop 8) seed = 0 := by
  rw [drop_four_eq b hb, calculate_xor32, Nat.xor_comm seed, calculate_xor32_xor]
  unfold field_32bit
  generalize endian_little_convert_32bit (byte_at b 4) (byte_at b (4 + 1)) (byte_at b (4 + 2))
    (byte_at b (4 + 3)) = w
  constructor
  · intro e
    have : w ^^^ 0 = w ^^^ calculate_xor32 (List.drop 8 b) seed := by simpa using e
    exact (Nat.xor_right_injective this).symm
  · intro e
    rw [e, Nat.xor_zero]

theorem flip_bit_ne (x : uint8_t) (j : Fin 8) : (Fin.ofNat (x.val ^^^ 2 ^ j.val) : uint8_t) ≠ x := by
  intro e
  have hx : x.val < 2 ^ 8 := x.isLt
  have hj : 2 ^ j.val < 2 ^ 8 := Nat.pow_lt_pow_right (by decide) j.isLt
  have hlt : x.val ^^^ 2 ^ j.val < 256 := Nat.xor_lt_two_pow hx hj
  have h1 : (x.val ^^^ 2 ^ j.val) % 256 = x.val := congrArg Fin.val e
  rw [Nat.mod_eq_of_lt hlt] at h1
  have h2 : x.val ^^^ 2 ^ j.val = x.val ^^^ 0 := by simpa using h1
  have h3 : 2 ^ j.val = 0 := Nat.xor_right_injective h2
  exact absurd h3 (by positivity)

theorem endian_little_convert_32bit_bytes (w : Nat) (hw : w < 2 ^ 32) :
    endian_little_convert_32bit (Fin.ofNat w) (Fin.ofNat (w / 2 ^ 8)) (Fin.ofNat (w / 2 ^ 16))
      (Fin.ofNat (w / 2 ^ 24)) = w := by
  simp only [endian_little_convert_32bit, Fin.ofNat]
  omega

theorem byte_at_append (l1 l2 : List uint8_t) (m k : Nat) (h : l1.length + k = m) :
    byte_at (l1 ++ l2) m = byte_at l2 k := by
  subst h
  simp [byte_at, List.getElem?_append_right]

theorem field_32bit_append (l1 l2 : List uint8_t) (m k : Nat) (h : l1.length + k = m) :
    field_32bit (l1 ++ l2) m = field_32bit l2 k := by
  unfold field_32bit
  rw [byte_at_append l1 l2 m k h, byte_at_append l1 l2 (m + 1) (k + 1) (by omega),
    byte_at_append l1 l2 (m + 2) (k + 2) (by omega), byte_at_append l1 l2 (m + 3) (k + 3) (by omega)]

theorem field_32bit_uint32_bytes (w : Nat) (hw : w < 2 ^ 32) (rest : List uint8_t) :
    field_32bit (uint32_bytes w ++ rest) 0 = w := by
  have := endian_little_convert_32bit_bytes w hw
  simpa [field_32bit, uint32_bytes, byte_at] using this

theorem calculate_xor32_uint32_bytes (w : Nat) (hw : w < 2 ^ 32) (rest : List uint8_t) (s : Nat) :
    calculate_xor32 (uint32_bytes w ++ rest) s = calculate_xor32 rest (s ^^^ w) := by
  have := endian_little_convert_32bit_bytes w hw
  show calculate_xor32 (_ :: _ :: _ :: _ :: rest) s = _
  rw [calculate_xor32, this]

theorem calculate_xor32_replicate_zero_nil (n : Nat) (s : Nat) :
    calculate_xor32 (List.replicate (4 * n) 0) s = s := by
  have := calculate_xor32_replicate_zero n [] s
  simpa [calculate_xor32] using this

theorem header_of_length (c v r p : Nat) : (header_of c v r p).length = 4096 := by
  simp only [header_of, esedb_file_signature, uint32_bytes, List.length_append, List.length_cons,
    List.length_nil, List.length_replicate]

theorem header_of_signature (c v r p : Nat) : (header_of c v r p).take 4 = esedb_file_signature := by
  rfl

theorem header_of_drop (c v r p : Nat) : (header_of c v r p).drop 8 =
    uint32_bytes v ++ (List.replicate (4 * 55) 0 ++ (uint32_bytes r ++
      (uint32_bytes p ++ List.replicate (4 * 964) 0))) := by
  rfl

theorem header_of_checksum (c v r p : Nat) (hc : c < 2 ^ 32) :
    field_32bit (header_of c v r p) 4 = c := by
  unfold header_of
  rw [field_32bit_append _ _ 4 0 (by rfl), field_32bit_uint32_bytes c hc]

theorem header_of_format_version (c v r p : Nat) (hv : v < 2 ^ 32) :
    field_32bit (header_of c v r p) 8 = v := by
  unfold header_of
  rw [field_32bit_append _ _ 8 4 (by rfl), field_32bit_append _ _ 4 0 (by rfl),
    field_32bit_uint32_bytes v hv]

theorem header_of_format_revision (c v r p : Nat) (hr : r < 2 ^ 32) :
    field_32bit (header_of c v r p) 232 = r := by
  unfold header_of
  rw [field_32bit_append _ _ 232 228 (by rfl), field_32bit_append _ _ 228 224 (by rfl),
    field_32bit_append _ _ 224 220 (by rfl),
    field_32bit_append _ _ 220 0 (by rw [List.length_replicate]),
    field_32bit_uint32_bytes r hr]

theorem header_of_page_size (c v r p : Nat) (hp : p < 2 ^ 32) :
    field_32bit (header_of c v r p) 236 = p := by
  unfold header_of
  rw [field_32bit_append _ _ 236 232 (by rfl), field_32bit_append _ _ 232 228 (by rfl),
    field_32bit_append _ _ 228 224 (by rfl),
    field_32bit_append _ _ 224 4 (by rw [List.length_replicate]),
    field_32bit_append _ _ 4 0 (by rfl),
    field_32bit_uint32_bytes p hp]

theorem header_of_fold (c v r p : Nat) (hv : v < 2 ^ 32) (hr : r < 2 ^ 32) (hp : p < 2 ^ 32)
    (s : Nat) :
    calculate_xor32 ((header_of c v r p).drop 8) s = ((s ^^^ v) ^^^ r) ^^^ p := by
  rw [header_of_drop, calculate_xor32_uint32_bytes v hv, calculate_xor32_replicate_zero,
    calculate_xor32_uint32_bytes r hr, calculate_xor32_uint32_bytes p hp,
    calculate_xor32_replicate_zero_nil]

theorem valid_header_fold (c r p : Nat) (hr : r < 2 ^ 32) (hp : p < 2 ^ 32) :
    calculate_xor32 ((valid_header c r p).drop 8) 0x89abcdef = 0 := by
  unfold valid_header
  have hv : (0x89abcdef ^^^ r) ^^^ p < 2 ^ 32 :=
    Nat.xor_lt_two_pow (Nat.xor_lt_two_pow (by decide) hr) hp
  rw [header_of_fold c _ r p hv hr hp]
  have : ((0x89abcdef ^^^ ((0x89abcdef ^^^ r) ^^^ p)) ^^^ r) ^^^ p
      = (0x89abcdef ^^^ 0x89abcdef) ^^^ ((r ^^^ r) ^^^ (p ^^^ p)) := by ac_rfl
  rw [this]
  simp

theorem file_header_data_eq (p : libbfio_handle_t) (h : p.read_data.length = 4096) :
    file_header_data p = p.read_data := by
  unfold file_header_data
  rw [h, List.take_of_length_le (by omega)]
  simp

theorem file_provider_header (b rest : List uint8_t) (hb : b.length = 4096) :
    file_header_data (file_provider (b ++ rest)) = b := by
  have e : (file_provider (b ++ rest)).read_data = b := by
    show (b ++ rest).take 4096 = b
    exact List.take_left' hb
  rw [file_header_data_eq _ (by rw [e]; exact hb), e]

theorem file_provider_read_count (b rest : List uint8_t) (hb : b.length = 4096) :
    (file_provider (b ++ rest)).read_count = 4096 := by
  show Int.ofNat (min 4096 (b ++ rest).length) = 4096
  rw [List.length_append, hb]
  have : min 4096 (4096 + rest.length) = 4096 := by omega
  rw [this]
  rfl

theorem byte_at_drop (l : List uint8_t) (n k : Nat) : byte_at (l.drop n) k = byte_at l (n + k) := by
  simp [byte_at, List.getElem?_drop]

theorem header_accepted_iff (p : libbfio_handle_t) :
    header_accepted p ↔ p.seek_offset_result 0 ≠ -1 ∧ p.read_count = 4096
      ∧ (file_header_data p).take 4 = esedb_file_signature
      ∧ calculate_xor32 ((file_header_data p).drop 8) 0x89abcdef = 0 := by
  unfold header_accepted
  rw [checksum_matches_iff _ (by rw [file_header_data_length]; omega)]

theorem read_file_header_of_accepted (h : libesedb_io_handle_t) (p : libbfio_handle_t)
    (old_page_size : Nat) (hp : h.file_io_handle = some p) (hacc : header_accepted p) :
    libesedb_io_handle_read_file_header (some h) (some old_page_size) =
      ⟨1, some { h with
          format_version := field_32bit (file_header_data p) 8
          format_revision := field_32bit (file_header_data p) 232 },
        some (field_32bit (file_header_data p) 236), [], [.seek_offset 0, .read 4096]⟩ := by
  obtain ⟨hseek, hread, hsig, hck⟩ := hacc
  rw [read_file_header_checks h p old_page_size hp hseek hread, if_neg (by simpa using hsig),
    if_neg (by simpa using hck)]

theorem read_file_header_value_iff (h : libesedb_io_handle_t) (p : libbfio_handle_t)
    (old_page_size : Nat) (hp : h.file_io_handle = some p) :
    (libesedb_io_handle_read_file_header (some h) (some old_page_size)).value = 1
      ↔ header_accepted p := by
  constructor
  · intro hv
    by_cases hseek : p.seek_offset_result 0 = -1
    · simp [libesedb_io_handle_read_file_header, hp, hseek] at hv
    by_cases hread : p.read_count = 4096
    · rw [read_file_header_checks h p old_page_size hp hseek hread] at hv
      by_cases hsig : (file_header_data p).take 4 = esedb_file_signature
      · by_cases hck : field_32bit (file_header_data p) 4
            = calculate_xor32 ((file_header_data p).drop 4) 0x89abcdef
        · exact ⟨hseek, hread, hsig, hck⟩
        · rw [if_neg (by simpa using hsig), if_pos hck] at hv
          simp at hv
      · rw [if_pos hsig] at hv
        simp at hv
    · simp [libesedb_io_handle_read_file_header, hp, hseek, hread] at hv
  · intro hacc
    rw [read_file_header_of_accepted h p old_page_size hp hacc]

theorem valid_header_accepted (c r v : Nat) (hr : r < 2 ^ 32) (hv : v < 2 ^ 32)
    (rest : List uint8_t) : header_accepted (file_provider (valid_header c r v ++ rest)) := by
  have hl : (valid_header c r v).length = 4096 := header_of_length _ _ _ _
  rw [header_accepted_iff, file_provider_header _ _ hl, file_provider_read_count _ _ hl]
  exact ⟨by show (0 : Int) ≠ -1; decide, rfl, header_of_signature _ _ _ _, valid_header_fold c r v hr hv⟩

theorem flip_header_bit_data (p : libbfio_handle_t) (i : Nat) (j : Fin 8) :
    file_header_data (flip_header_bit p i j) = flip_bit (file_header_data p) i j := by
  apply file_header_data_eq
  show (flip_bit (file_header_data p) i j).length = 4096
  unfold flip_bit
  rw [List.length_set, file_header_data_length]

theorem take_set_of_le (l : List uint8_t) (a : uint8_t) (m n : Nat) (h : m ≤ n) :
    (l.set n a).take m = l.take m := by
  rw [List.set_take, List.set_eq_of_length_le]
  rw [List.length_take]
  omega

theorem flip_checksum_field_accepted (p : libbfio_handle_t) (hacc : header_accepted p)
    (i : Nat) (hi4 : 4 ≤ i) (hi : i < 8) (j : Fin 8) :
    header_accepted (flip_header_bit p i j) := by
  rw [header_accepted_iff] at hacc ⊢
  obtain ⟨hseek, hread, hsig, hck⟩ := hacc
  refine ⟨hseek, hread, ?_, ?_⟩
  · rw [flip_header_bit_data]
    unfold flip_bit
    rw [take_set_of_le _ _ _ _ hi4]
    exact hsig
  · rw [flip_header_bit_data]
    unfold flip_bit
    rw [List.drop_set_of_lt _ _ hi]
    exact hck

theorem flip_body_rejected (p : libbfio_handle_t) (hacc : header_accepted p)
    (i : Nat) (hi8 : 8 ≤ i) (hi : i < 4096) (j : Fin 8) :
    (file_header_data (flip_header_bit p i j)).take 4 = esedb_file_signature
      ∧ field_32bit (file_header_data (flip_header_bit p i j)) 4
        ≠ calculate_xor32 ((file_header_data (flip_header_bit p i j)).drop 4) 0x89abcdef := by
  have hacc2 := (header_accepted_iff p).mp hacc
  obtain ⟨hseek, hread, hsig, hck⟩ := hacc2
  have hlen := file_header_data_length p
  constructor
  · rw [flip_header_bit_data]
    unfold flip_bit
    rw [take_set_of_le _ _ _ _ (by omega)]
    exact hsig
  · intro e
    rw [checksum_matches_iff _ (by rw [file_header_data_length]; omega), flip_header_bit_data] at e
    revert e
    unfold flip_bit
    rw [List.drop_set, if_neg (by omega)]
    have hne := calculate_xor32_set_ne ((file_header_data p).drop 8) 0x89abcdef (i - 8)
      (Fin.ofNat ((byte_at (file_header_data p) i).val ^^^ 2 ^ j.val))
      (by rw [List.length_drop, hlen]; omega)
      (by
        rw [byte_at_drop, show 8 + (i - 8) = i by omega]
        exact flip_bit_ne _ _)
    rw [hck] at hne
    exact hne

theorem off64_t_eq (x : Int) (h1 : -9223372036854775808 ≤ x) (h2 : x < 9223372036854775808) :
    off64_t x = x := by
  unfold off64_t
  omega

theorem off64_t_lt (x : Int) : off64_t x < 9223372036854775808 := by
  unfold off64_t
  omega

theorem off64_t_ge (x : Int) : -9223372036854775808 ≤ off64_t x := by
  unfold off64_t
  omega

theorem page_reads_succ (off : Int) (page_size n : Nat) :
    page_reads off page_size (n + 1)
      = io_event.page_read off page_size :: page_reads (off + page_size) page_size n := by
  unfold page_reads
  rw [List.range_succ_eq_map, List.map_cons, List.map_map]
  congr 1
  · simp
  · apply List.map_congr_left
    intro m _
    simp only [Function.comp, Nat.succ_eq_add_one]
    congr 1
    push_cast
    ring

/-- The loop over `n` readable pages, the offset after them being at or
beyond the file size. -/
theorem open_read_loop_success (p : libbfio_handle_t) (page_size file_size : Nat) :
    ∀ (n fuel : Nat) (off : Int) (events : List io_event), n < fuel →
      -9223372036854775808 ≤ off → off + n * page_size < 9223372036854775808 →
      (∀ m, m < n → off + m * page_size < off64_t file_size) →
      ¬ (off + n * page_size < off64_t file_size) →
      (∀ m, m < n → p.page_read_result (off + m * page_size) page_size = 1) →
      libesedb_file_open_read_loop p page_size file_size fuel off events
        = some (1, events ++ page_reads off page_size n) := by
  intro n
  induction n with
  | zero =>
      intro fuel off events hf _ _ _ hend _
      obtain ⟨f, rfl⟩ : ∃ f, fuel = f + 1 := ⟨fuel - 1, by omega⟩
      have hend2 : ¬ (off < off64_t file_size) := by simpa using hend
      simp [libesedb_file_open_read_loop, hend2, page_reads]
  | succ n ih =>
      intro fuel off events hf hlo hhi hlt hend hok
      obtain ⟨f, rfl⟩ : ∃ f, fuel = f + 1 := ⟨fuel - 1, by omega⟩
      have h0 : off < off64_t file_size := by simpa using hlt 0 (by omega)
      have hp0 : p.page_read_result off page_size = 1 := by simpa using hok 0 (by omega)
      have hstep : (off + (page_size : Int)) + (n : Int) * page_size
          = off + ((n + 1 : Nat) : Int) * page_size := by push_cast; ring
      have hnn : (0 : Int) ≤ (n : Int) * page_size :=
        Int.mul_nonneg (Int.ofNat_nonneg _) (Int.ofNat_nonneg _)
      have hpp : (0 : Int) ≤ (page_size : Int) := Int.ofNat_nonneg _
      have hnext : off64_t (off + page_size) = off + page_size := by
        apply off64_t_eq
        · omega
        · have := hstep ▸ hhi
          omega
      rw [libesedb_file_open_read_loop, if_pos h0, if_neg (by simp [hp0]), hnext,
        ih f (off + page_size) _ (by omega) (by omega) (by rw [hstep]; exact hhi)
          (by
            intro m hm
            have := hlt (m + 1) (by omega)
            have e : (off + (page_size : Int)) + (m : Int) * page_size
                = off + ((m + 1 : Nat) : Int) * page_size := by push_cast; ring
            rw [e]; exact this)
          (by rw [hstep]; exact hend)
          (by
            intro m hm
            have := hok (m + 1) (by omega)
            have e : (off + (page_size : Int)) + (m : Int) * page_size
                = off + ((m + 1 : Nat) : Int) * page_size := by push_cast; ring
            rw [e]; exact this),
        page_reads_succ, List.append_assoc]
      rfl

/-- The loop over `n` readable pages followed by a page whose read fails. -/
theorem open_read_loop_failure (p : libbfio_handle_t) (page_size file_size : Nat) :
    ∀ (n fuel : Nat) (off : Int) (events : List io_event), n < fuel →
      -9223372036854775808 ≤ off →
      (∀ m, m ≤ n → off + m * page_size < off64_t file_size) →
      (∀ m, m < n → p.page_read_result (off + m * page_size) page_size = 1) →
      p.page_read_result (off + n * page_size) page_size ≠ 1 →
      libesedb_file_open_read_loop p page_size file_size fuel off events
        = some (-1, events ++ page_reads off page_size (n + 1)) := by
  intro n
  induction n with
  | zero =>
      intro fuel off events hf _ hlt _ hbad
      obtain ⟨f, rfl⟩ : ∃ f, fuel = f + 1 := ⟨fuel - 1, by omega⟩
      have h0 : off < off64_t file_size := by simpa using hlt 0 (by omega)
      have hb : p.page_read_result off page_size ≠ 1 := by simpa using hbad
      rw [libesedb_file_open_read_loop, if_pos h0, if_pos hb, page_reads_succ]
      rfl
  | succ n ih =>
      intro fuel off events hf hlo hlt hok hbad
      obtain ⟨f, rfl⟩ : ∃ f, fuel = f + 1 := ⟨fuel - 1, by omega⟩
      have h0 : off < off64_t file_size := by simpa using hlt 0 (by omega)
      have hp0 : p.page_read_result off page_size = 1 := by simpa using hok 0 (by omega)
      have hstep : (off + (page_size : Int)) + (n : Int) * page_size
          = off + ((n + 1 : Nat) : Int) * page_size := by push_cast; ring
      have hnn : (0 : Int) ≤ (n : Int) * page_size :=
        Int.mul_nonneg (Int.ofNat_nonneg _) (Int.ofNat_nonneg _)
      have hpp : (0 : Int) ≤ (page_size : Int) := Int.ofNat_nonneg _
      have hlast := hlt (n + 1) (by omega)
      have hS := off64_t_lt file_size
      have hnext : off64_t (off + page_size) = off + page_size := by
        apply off64_t_eq
        · omega
        · rw [← hstep] at hlast
          omega
      rw [libesedb_file_open_read_loop, if_pos h0, if_neg (by simp [hp0]), hnext,
        ih f (off + page_size) _ (by omega) (by omega)
          (by
            intro m hm
            have := hlt (m + 1) (by omega)
            have e : (off + (page_size : Int)) + (m : Int) * page_size
                = off + ((m + 1 : Nat) : Int) * page_size := by push_cast; ring
            rw [e]; exact this)
          (by
            intro m hm
            have := hok (m + 1) (by omega)
            have e : (off + (page_size : Int)) + (m : Int) * page_size
                = off + ((m + 1 : Nat) : Int) * page_size := by push_cast; ring
            rw [e]; exact this)
          (by rw [hstep]; exact hbad),
        page_reads_succ off page_size (n + 1), List.append_assoc]
      rfl

/-- With a positive page size and every page readable the loop ends with 1
when the fuel exceeds the distance to the file size. -/
theorem open_read_loop_terminates (p : libbfio_handle_t) (page_size file_size : Nat)
    (hps : 0 < page_size) (hsize : off64_t file_size + page_size ≤ 9223372036854775808)
    (hok : ∀ off, p.page_read_result off page_size = 1) :
    ∀ (fuel : Nat) (off : Int) (events : List io_event),
      -9223372036854775808 ≤ off → (off64_t file_size - off).toNat < fuel →
      ∃ evs, libesedb_file_open_read_loop p page_size file_size fuel off events
        = some (1, evs) := by
  intro fuel
  induction fuel with
  | zero => intro off events _ hf; omega
  | succ f ih =>
      intro off events hlo hf
      by_cases h0 : off < off64_t file_size
      · have hnext : off64_t (off + page_size) = off + page_size := by
          apply off64_t_eq <;> omega
        rw [libesedb_file_open_read_loop, if_pos h0, if_neg (by simp [hok]), hnext]
        exact ih _ _ (by omega) (by omega)
      · exact ⟨events, by rw [libesedb_file_open_read_loop, if_neg h0]⟩

theorem field_32bit_lt (b : List uint8_t) (off : Nat) : field_32bit b off < 2 ^ 32 :=
  endian_little_convert_32bit_lt _ _ _ _

theorem open_read_start (ps : Nat) (h : ps < 2 ^ 32) :
    off64_t (2 * (ps : Int) % 2 ^ 64) = 2 * (ps : Int) := by
  unfold off64_t
  omega

theorem open_read_no_debug (fuel : Nat) (f : libesedb_internal_file_t)
    (h : libesedb_io_handle_t) (p : libbfio_handle_t) (hf : f.io_handle = some h)
    (hp : h.file_io_handle = some p) (hacc : header_accepted p) :
    libesedb_file_open_read false fuel (some f)
      = some ⟨1, some (file_after_header f h p), [], [.seek_offset 0, .read 4096]⟩ := by
  simp only [libesedb_file_open_read, hf, read_file_header_of_accepted h p 0 hp hacc]
  simp [file_after_header, hp]

theorem open_read_header_failure (debug : Bool) (fuel : Nat) (f : libesedb_internal_file_t)
    (h : libesedb_io_handle_t) (p : libbfio_handle_t) (hf : f.io_handle = some h)
    (hp : h.file_io_handle = some p) (hacc : ¬ header_accepted p) :
    ∃ r, libesedb_file_open_read debug fuel (some f) = some r ∧ r.value = -1 := by
  have hv : (libesedb_io_handle_read_file_header (some h) (some 0)).value ≠ 1 :=
    fun e => hacc ((read_file_header_value_iff h p 0 hp).mp e)
  simp only [libesedb_file_open_read, hf]
  rw [if_pos hv]
  exact ⟨_, rfl, rfl⟩

theorem open_read_debug (fuel : Nat) (f : libesedb_internal_file_t)
    (h : libesedb_io_handle_t) (p : libbfio_handle_t) (hf : f.io_handle = some h)
    (hp : h.file_io_handle = some p) (hacc : header_accepted p)
    (hsize : p.get_size_result = 1) :
    libesedb_file_open_read true fuel (some f)
      = match libesedb_file_open_read_loop p (header_page_size p) p.file_size fuel
          (2 * (header_page_size p : Int)) [.seek_offset 0, .read 4096, .get_size] with
        | none => none
        | some (value, events) =>
            if value ≠ 1 then
              some ⟨-1, some (file_after_header f h p), [⟨.IO_DOMAIN, .IO_ERROR_READ_FAILED,
                "libesedb_file_open_read: unable to read page.", []⟩], events⟩
            else
              some ⟨1, some (file_after_header f h p), [], events⟩ := by
  simp only [libesedb_file_open_read, hf, read_file_header_of_accepted h p 0 hp hacc, hp]
  simp only [Option.getD_some, hsize, ne_eq, not_true_eq_false, if_false, if_true,
    one_ne_zero, List.cons_append, List.nil_append,
    open_read_start _ (field_32bit_lt (file_header_data p) 236)]
  simp [file_after_header, header_page_size, hp]

theorem file_provider_header_nil (b : List uint8_t) (hb : b.length = 4096) :
    file_header_data (file_provider b) = b := by
  have := file_provider_header b [] hb
  rwa [List.append_nil] at this

theorem valid_header_length (c r v : Nat) : (valid_header c r v).length = 4096 :=
  header_of_length _ _ _ _

theorem valid_header_accepted_nil (c r v : Nat) (hr : r < 2 ^ 32) (hv : v < 2 ^ 32) :
    header_accepted (file_provider (valid_header c r v)) := by
  have := valid_header_accepted c r v hr hv []
  rwa [List.append_nil] at this

theorem valid_header_page_size (c r v : Nat) (hv : v < 2 ^ 32) (rest : List uint8_t) :
    header_page_size (file_provider (valid_header c r v ++ rest)) = v := by
  unfold header_page_size
  rw [file_provider_header _ _ (valid_header_length c r v)]
  exact header_of_page_size _ _ _ _ hv

theorem valid_header_read (c r v : Nat) (hr : r < 2 ^ 32) (hv : v < 2 ^ 32)
    (rest : List uint8_t) (old_page_size : Nat) :
    libesedb_io_handle_read_file_header
        (some (bound_io_handle (file_provider (valid_header c r v ++ rest)))) (some old_page_size)
      = ⟨1, some { bound_io_handle (file_provider (valid_header c r v ++ rest)) with
            format_version := (0x89abcdef ^^^ r) ^^^ v
            format_revision := r },
          some v, [], [.seek_offset 0, .read 4096]⟩ := by
  have hfv : (0x89abcdef ^^^ r) ^^^ v < 2 ^ 32 :=
    Nat.xor_lt_two_pow (Nat.xor_lt_two_pow (by decide) hr) hv
  rw [read_file_header_of_accepted _ _ old_page_size rfl (valid_header_accepted c r v hr hv rest),
    file_provider_header _ _ (valid_header_length c r v)]
  unfold valid_header
  rw [header_of_page_size _ _ _ _ hv, header_of_format_revision _ _ _ _ hr,
    header_of_format_version _ _ _ _ hfv]

theorem valid_header_read_nil (c r v : Nat) (hr : r < 2 ^ 32) (hv : v < 2 ^ 32)
    (old_page_size : Nat) :
    libesedb_io_handle_read_file_header
        (some (bound_io_handle (file_provider (valid_header c r v)))) (some old_page_size)
      = ⟨1, some { bound_io_handle (file_provider (valid_header c r v)) with
            format_version := (0x89abcdef ^^^ r) ^^^ v
            format_revision := r },
          some v, [], [.seek_offset 0, .read 4096]⟩ := by
  have := valid_header_read c r v hr hv [] old_page_size
  rwa [List.append_nil] at this

/-! ## Setting the ASCII codepage -/

/-- C1 (code defect): `libesedb_file_set_ascii_codepage` on a non-NULL file
returns -1 with the unsupported-value error for every codepage value, the
nine enumerated codepages included, and leaves the file as it was: the
conditions `ascii_codepage != ...` are joined with `||`, and no value differs
from none of the nine constants. -/
theorem set_ascii_codepage_always_fails (f : libesedb_internal_file_t) (ascii_codepage : Int) :
    libesedb_file_set_ascii_codepage (some f) ascii_codepage =
      ⟨-1, some f, [⟨.ARGUMENTS_DOMAIN, .ARGUMENT_ERROR_UNSUPPORTED_VALUE,
        "libesedb_file_set_ascii_codepage: unsupported ASCII codepage.", []⟩], []⟩ := by
  have h : ascii_codepage ≠ LIBESEDB_CODEPAGE_ASCII
      ∨ ascii_codepage ≠ LIBESEDB_CODEPAGE_WINDOWS_1250
      ∨ ascii_codepage ≠ LIBESEDB_CODEPAGE_WINDOWS_1251
      ∨ ascii_codepage ≠ LIBESEDB_CODEPAGE_WINDOWS_1252
      ∨ ascii_codepage ≠ LIBESEDB_CODEPAGE_WINDOWS_1253
      ∨ ascii_codepage ≠ LIBESEDB_CODEPAGE_WINDOWS_1254
      ∨ ascii_codepage ≠ LIBESEDB_CODEPAGE_WINDOWS_1256
      ∨ ascii_codepage ≠ LIBESEDB_CODEPAGE_WINDOWS_1257
      ∨ ascii_codepage ≠ LIBESEDB_CODEPAGE_WINDOWS_1258 := by
    simp only [LIBESEDB_CODEPAGE_ASCII, LIBESEDB_CODEPAGE_WINDOWS_1250]
    omega
  simp only [libesedb_file_set_ascii_codepage]
  rw [if_pos h]

/-! ## Bit flips in the header -/

theorem byte_at_flip_bit (data : List uint8_t) (i : Nat) (j : Fin 8) (hi : i < data.length) :
    byte_at (flip_bit data i j) i ≠ byte_at data i := by
  have e : byte_at (flip_bit data i j) i = Fin.ofNat ((byte_at data i).val ^^^ 2 ^ j.val) := by
    unfold flip_bit
    rw [byte_at_eq_getElem _ _ (by rw [List.length_set]; exact hi), List.getElem_set_self]
  rw [e]
  exact flip_bit_ne _ _

/-- C2 (counterexample): the header `valid_header 0 0 4096` is accepted, and
so is the header that differs from it in bit 0 of byte 4, a byte of the
stored checksum. -/
theorem checksum_field_bit_flip_still_accepted :
    (libesedb_io_handle_read_file_header
        (some (bound_io_handle (file_provider (valid_header 0 0 4096)))) (some 0)).value = 1
    ∧ byte_at (file_header_data (flip_header_bit (file_provider (valid_header 0 0 4096)) 4 0)) 4
        ≠ byte_at (file_header_data (file_provider (valid_header 0 0 4096))) 4
    ∧ (libesedb_io_handle_read_file_header
        (some (bound_io_handle (flip_header_bit (file_provider (valid_header 0 0 4096)) 4 0)))
        (some 0)).value = 1 := by
  have hacc := valid_header_accepted_nil 0 0 4096 (by decide) (by decide)
  refine ⟨(read_file_header_value_iff _ _ 0 rfl).mpr hacc, ?_,
    (read_file_header_value_iff _ _ 0 rfl).mpr
      (flip_checksum_field_accepted _ hacc 4 (by decide) (by decide) 0)⟩
  rw [flip_header_bit_data]
  exact byte_at_flip_bit _ _ _ (by rw [file_header_data_length]; decide)

/-- C2 (amended): for every header `libesedb_io_handle_read_file_header`
accepts, flipping any single bit of a byte in [8, 4096) yields a header that
fails with the checksum-mismatch error, while flipping a bit of a byte in
[4, 8), the stored checksum, yields a header that is accepted again. -/
theorem header_checksum_bit_flip (h : libesedb_io_handle_t) (p : libbfio_handle_t)
    (old_page_size : Nat) (hp : h.file_io_handle = some p)
    (hacc : (libesedb_io_handle_read_file_header (some h) (some old_page_size)).value = 1)
    (i : Nat) (j : Fin 8) :
    (8 ≤ i → i < 4096 →
      (libesedb_io_handle_read_file_header
          (some { h with file_io_handle := some (flip_header_bit p i j) })
          (some old_page_size)).value = -1
      ∧ error_kinds (libesedb_io_handle_read_file_header
          (some { h with file_io_handle := some (flip_header_bit p i j) })
          (some old_page_size)).error = [(.INPUT_DOMAIN, .INPUT_ERROR_CRC_MISMATCH)])
    ∧ (4 ≤ i → i < 8 →
      (libesedb_io_handle_read_file_header
          (some { h with file_io_handle := some (flip_header_bit p i j) })
          (some old_page_size)).value = 1) := by
  have hacc2 := (read_file_header_value_iff h p old_page_size hp).mp hacc
  constructor
  · intro hi8 hi
    obtain ⟨hsig, hck⟩ := flip_body_rejected p hacc2 i hi8 hi j
    rw [read_file_header_checks _ (flip_header_bit p i j) old_page_size rfl hacc2.1 hacc2.2.1,
      if_neg (by simpa using hsig), if_pos hck]
    exact ⟨rfl, rfl⟩
  · intro hi4 hi
    exact (read_file_header_value_iff _ _ old_page_size rfl).mpr
      (flip_checksum_field_accepted p hacc2 i hi4 hi j)

/-- C2 (witness): the theorem at the header `valid_header 0 17 8192`, bit 3
of byte 100 and bit 7 of byte 7. -/
theorem header_checksum_bit_flip_witness :
    (libesedb_io_handle_read_file_header
        (some (bound_io_handle (file_provider (valid_header 0 17 8192)))) (some 0)).value = 1
    ∧ (libesedb_io_handle_read_file_header
        (some { bound_io_handle (file_provider (valid_header 0 17 8192)) with
          file_io_handle := some (flip_header_bit (file_provider (valid_header 0 17 8192)) 100 3) })
        (some 0)).value = -1
    ∧ (libesedb_io_handle_read_file_header
        (some { bound_io_handle (file_provider (valid_header 0 17 8192)) with
          file_io_handle := some (flip_header_bit (file_provider (valid_header 0 17 8192)) 7 7) })
        (some 0)).value = 1 := by
  have hacc : (libesedb_io_handle_read_file_header
      (some (bound_io_handle (file_provider (valid_header 0 17 8192)))) (some 0)).value = 1 := by
    rw [valid_header_read_nil 0 17 8192 (by decide) (by decide)]
  exact ⟨hacc,
    ((header_checksum_bit_flip _ _ 0 rfl hacc 100 3).1 (by decide) (by decide)).1,
    (header_checksum_bit_flip _ _ 0 rfl hacc 7 7).2 (by decide) (by decide)⟩

/-! ## Acceptance of the header -/

/-- C3: on a provider whose seek to offset 0 succeeds and whose read returns
the 4096 bytes `b`, `libesedb_io_handle_read_file_header` returns 1 exactly
when `b[0..4)` is EF CD AB 89 and the little-endian value of the checksum
field equals the XOR-32 fold of `b[4..4096)` from the seed 0x89ABCDEF; when
the signature matches and the two values differ it returns -1 with the
checksum-mismatch error, which carries the two values. -/
theorem read_file_header_succeeds_iff (h : libesedb_io_handle_t) (p : libbfio_handle_t)
    (old_page_size : Nat) (hp : h.file_io_handle = some p)
    (hseek : p.seek_offset_result 0 ≠ -1) (hread : p.read_count = 4096)
    (hlen : p.read_data.length = 4096) :
    ((libesedb_io_handle_read_file_header (some h) (some old_page_size)).value = 1
      ↔ p.read_data.take 4 = [0xef, 0xcd, 0xab, 0x89]
        ∧ field_32bit p.read_data 4 = calculate_xor32 (p.read_data.drop 4) 0x89abcdef)
    ∧ (p.read_data.take 4 = [0xef, 0xcd, 0xab, 0x89] →
        field_32bit p.read_data 4 ≠ calculate_xor32 (p.read_data.drop 4) 0x89abcdef →
        (libesedb_io_handle_read_file_header (some h) (some old_page_size)).value = -1
        ∧ (libesedb_io_handle_read_file_header (some h) (some old_page_size)).error
          = [⟨.INPUT_DOMAIN, .INPUT_ERROR_CRC_MISMATCH,
              "libesedb_io_handle_read_file_header: mismatch in file header checksum.",
              [field_32bit p.read_data 4, calculate_xor32 (p.read_data.drop 4) 0x89abcdef]⟩]) := by
  have hd := file_header_data_eq p hlen
  constructor
  · rw [read_file_header_value_iff h p old_page_size hp]
    unfold header_accepted
    rw [hd]
    constructor
    · rintro ⟨_, _, hsig, hck⟩
      exact ⟨hsig, hck⟩
    · rintro ⟨hsig, hck⟩
      exact ⟨hseek, hread, hsig, hck⟩
  · intro hsig hck
    rw [read_file_header_checks h p old_page_size hp hseek hread, hd,
      if_neg (by simpa using hsig), if_pos hck]
    exact ⟨rfl, rfl⟩

theorem file_provider_read_data_length (b : List uint8_t) (hb : b.length = 4096) :
    (file_provider b).read_data.length = 4096 := by
  show (b.take 4096).length = 4096
  rw [List.length_take, hb]
  rfl

theorem file_provider_read_count_nil (b : List uint8_t) (hb : b.length = 4096) :
    (file_provider b).read_count = 4096 := by
  have := file_provider_read_count b [] hb
  rwa [List.append_nil] at this

theorem file_provider_seek (b : List uint8_t) : (file_provider b).seek_offset_result 0 ≠ -1 := by
  show (0 : Int) ≠ -1
  decide

/-- C3 (witness): the theorem at the provider over the header
`valid_header 0 17 8192`. -/
theorem read_file_header_succeeds_iff_witness :
    (file_provider (valid_header 0 17 8192)).seek_offset_result 0 ≠ -1
    ∧ (file_provider (valid_header 0 17 8192)).read_count = 4096
    ∧ (file_provider (valid_header 0 17 8192)).read_data.length = 4096
    ∧ ((libesedb_io_handle_read_file_header
          (some (bound_io_handle (file_provider (valid_header 0 17 8192)))) (some 0)).value = 1
      ↔ (file_provider (valid_header 0 17 8192)).read_data.take 4 = [0xef, 0xcd, 0xab, 0x89]
        ∧ field_32bit (file_provider (valid_header 0 17 8192)).read_data 4
          = calculate_xor32 ((file_provider (valid_header 0 17 8192)).read_data.drop 4)
              0x89abcdef) :=
  ⟨file_provider_seek _, file_provider_read_count_nil _ (valid_header_length _ _ _),
    file_provider_read_data_length _ (valid_header_length _ _ _),
    (read_file_header_succeeds_iff (bound_io_handle (file_provider (valid_header 0 17 8192)))
      (file_provider (valid_header 0 17 8192)) 0 rfl (file_provider_seek _)
      (file_provider_read_count_nil _ (valid_header_length _ _ _))
      (file_provider_read_data_length _ (valid_header_length _ _ _))).1⟩

/-! ## Signature mismatch -/

/-- C4 (counterexample): on a file of 8 bytes whose first 4 bytes are not the
signature the read of the header returns 8, and the error reported is the
read failure of the IO domain, not the signature mismatch. -/
theorem short_file_reports_read_failure :
    ([1, 2, 3, 4, 5, 6, 7, 8] : List uint8_t).take 4 ≠ esedb_file_signature
    ∧ (libesedb_io_handle_read_file_header
        (some (bound_io_handle (file_provider [1, 2, 3, 4, 5, 6, 7, 8]))) (some 0)).error
      = [⟨.IO_DOMAIN, .IO_ERROR_READ_FAILED,
          "libesedb_io_handle_read_file_header: unable to read file header.", []⟩] := by
  constructor
  · decide
  · rfl

/-- C4 (amended): when the read of the header returns 4096 bytes (the file
has at least 4096 bytes) and the first 4 bytes are not EF CD AB 89,
`libesedb_io_handle_read_file_header` returns -1 and reports the unsupported
file signature, whatever the other 4092 bytes are; the io handle and the
caller's page size are as before. -/
theorem signature_mismatch_reported (h : libesedb_io_handle_t) (p : libbfio_handle_t)
    (old_page_size : Nat) (hp : h.file_io_handle = some p)
    (hseek : p.seek_offset_result 0 ≠ -1) (hread : p.read_count = 4096)
    (hsig : (file_header_data p).take 4 ≠ [0xef, 0xcd, 0xab, 0x89]) :
    libesedb_io_handle_read_file_header (some h) (some old_page_size)
      = ⟨-1, some h, some old_page_size, [⟨.RUNTIME_DOMAIN, .RUNTIME_ERROR_UNSUPPORTED_VALUE,
          "libesedb_io_handle_read_file_header: unsupported file signature.", []⟩],
          [.seek_offset 0, .read 4096]⟩ := by
  have hsig2 : (file_header_data p).take 4 ≠ esedb_file_signature := hsig
  rw [read_file_header_checks h p old_page_size hp hseek hread, if_pos hsig2]

theorem bad_signature_header_length : bad_signature_header.length = 4096 := by
  simp only [bad_signature_header, List.length_append, List.length_cons, List.length_nil,
    List.length_replicate]

/-- C4 (witness): the theorem at the provider over `bad_signature_header`. -/
theorem signature_mismatch_reported_witness :
    (file_provider bad_signature_header).seek_offset_result 0 ≠ -1
    ∧ (file_provider bad_signature_header).read_count = 4096
    ∧ (file_header_data (file_provider bad_signature_header)).take 4 ≠ [0xef, 0xcd, 0xab, 0x89]
    ∧ libesedb_io_handle_read_file_header
        (some (bound_io_handle (file_provider bad_signature_header))) (some 0)
      = ⟨-1, some (bound_io_handle (file_provider bad_signature_header)), some 0,
          [⟨.RUNTIME_DOMAIN, .RUNTIME_ERROR_UNSUPPORTED_VALUE,
            "libesedb_io_handle_read_file_header: unsupported file signature.", []⟩],
          [.seek_offset 0, .read 4096]⟩ := by
  have hsig : (file_header_data (file_provider bad_signature_header)).take 4
      ≠ [0xef, 0xcd, 0xab, 0x89] := by
    rw [file_provider_header_nil _ bad_signature_header_length]
    show ([0x00, 0xcd, 0xab, 0x89] : List uint8_t) ≠ [0xef, 0xcd, 0xab, 0x89]
    decide
  exact ⟨file_provider_seek _, file_provider_read_count_nil _ bad_signature_header_length, hsig,
    signature_mismatch_reported _ _ 0 rfl (file_provider_seek _)
      (file_provider_read_count_nil _ bad_signature_header_length) hsig⟩

/-! ## Flags that are rejected -/

/-- C5 (counterexample): on the initialized file and a provider over a valid
header, the error of `libesedb_file_open_file_io_handle` for the flags Write
and the error for the flags 0 have the same domain and the same code
(arguments, unsupported value): they are not of different kinds. -/
theorem open_flag_errors_have_same_kind :
    (libesedb_file_open_file_io_handle false 0 initialized_file
        (some (file_provider (valid_header 0 0 4096))) LIBESEDB_FLAG_WRITE).map
        (fun r => error_kinds r.error)
      = some [(.ARGUMENTS_DOMAIN, .ARGUMENT_ERROR_UNSUPPORTED_VALUE)]
    ∧ (libesedb_file_open_file_io_handle false 0 initialized_file
        (some (file_provider (valid_header 0 0 4096))) 0).map
        (fun r => error_kinds r.error)
      = some [(.ARGUMENTS_DOMAIN, .ARGUMENT_ERROR_UNSUPPORTED_VALUE)] := by
  constructor
  · rfl
  · rfl

/-- C5 (amended): `libesedb_file_open_file_io_handle` and `libesedb_file_open`
return -1 for the flags Write and Read|Write with the error of the arguments
domain and code unsupported value that says write access is not supported,
and for the flags 0 with an error of the same domain and code that says the
flags are unsupported; in each case the file is as it was and no operation is
invoked on a provider. -/
theorem open_rejects_write_and_empty_flags (debug : Bool) (fuel : Nat)
    (f : libesedb_internal_file_t) (p : libbfio_handle_t) (bfio : libbfio_file_t)
    (filename : String) :
    libesedb_file_open_file_io_handle debug fuel (some f) (some p) LIBESEDB_FLAG_WRITE
      = some ⟨-1, some f, [⟨.ARGUMENTS_DOMAIN, .ARGUMENT_ERROR_UNSUPPORTED_VALUE,
          "libesedb_file_open_file_io_handle: write access to personal folder files currently not supported.",
          []⟩], []⟩
    ∧ libesedb_file_open_file_io_handle debug fuel (some f) (some p)
        (bit_or LIBESEDB_FLAG_READ LIBESEDB_FLAG_WRITE)
      = some ⟨-1, some f, [⟨.ARGUMENTS_DOMAIN, .ARGUMENT_ERROR_UNSUPPORTED_VALUE,
          "libesedb_file_open_file_io_handle: write access to personal folder files currently not supported.",
          []⟩], []⟩
    ∧ libesedb_file_open_file_io_handle debug fuel (some f) (some p) 0
      = some ⟨-1, some f, [⟨.ARGUMENTS_DOMAIN, .ARGUMENT_ERROR_UNSUPPORTED_VALUE,
          "libesedb_file_open_file_io_handle: unsupported flags.", []⟩], []⟩
    ∧ libesedb_file_open debug fuel bfio (some f) (some filename) LIBESEDB_FLAG_WRITE
      = some ⟨-1, some f, [⟨.ARGUMENTS_DOMAIN, .ARGUMENT_ERROR_UNSUPPORTED_VALUE,
          "libesedb_file_open: write access to Extensible Storage Engine Database files currently not supported.",
          []⟩], []⟩
    ∧ libesedb_file_open debug fuel bfio (some f) (some filename)
        (bit_or LIBESEDB_FLAG_READ LIBESEDB_FLAG_WRITE)
      = some ⟨-1, some f, [⟨.ARGUMENTS_DOMAIN, .ARGUMENT_ERROR_UNSUPPORTED_VALUE,
          "libesedb_file_open: write access to Extensible Storage Engine Database files currently not supported.",
          []⟩], []⟩
    ∧ libesedb_file_open debug fuel bfio (some f) (some filename) 0
      = some ⟨-1, some f, [⟨.ARGUMENTS_DOMAIN, .ARGUMENT_ERROR_UNSUPPORTED_VALUE,
          "libesedb_file_open: unsupported flags.", []⟩], []⟩ := by
  refine ⟨?_, ?_, ?_, ?_, ?_, ?_⟩
  · simp only [libesedb_file_open_file_io_handle]
    rw [if_neg (by decide), if_pos (by decide)]
  · simp only [libesedb_file_open_file_io_handle]
    rw [if_neg (by decide), if_pos (by decide)]
  · simp only [libesedb_file_open_file_io_handle]
    rw [if_pos (by decide)]
  · simp only [libesedb_file_open]
    rw [if_neg (by decide), if_pos (by decide)]
  · simp only [libesedb_file_open]
    rw [if_neg (by decide), if_pos (by decide)]
  · simp only [libesedb_file_open]
    rw [if_pos (by decide)]

/-! ## Page size of the header -/

/-- C9 (counterexample): a header with a correct signature and checksum whose
page size field is 12345 is accepted, and 12345, which is not a supported
page size, is returned. -/
theorem unsupported_page_size_accepted :
    (libesedb_io_handle_read_file_header
        (some (bound_io_handle (file_provider (valid_header 0 0 12345)))) (some 0)).value = 1
    ∧ (libesedb_io_handle_read_file_header
        (some (bound_io_handle (file_provider (valid_header 0 0 12345)))) (some 0)).page_size
      = some 12345
    ∧ 12345 ∉ supported_page_sizes := by
  rw [valid_header_read_nil 0 0 12345 (by decide) (by decide)]
  exact ⟨rfl, rfl, by decide⟩

/-- C9 (amended): `libesedb_io_handle_read_file_header` does not check the
page size.  Every header with a correct signature and checksum is accepted
whatever its page size field holds, and the value of the field is returned;
and for every 32 bit value `v` there is such a header, `valid_header 0 0 v`,
for which `v` is returned. -/
theorem read_file_header_returns_any_page_size (v : Nat) (hv : v < 2 ^ 32) :
    (∀ (h : libesedb_io_handle_t) (p : libbfio_handle_t) (old_page_size : Nat),
      h.file_io_handle = some p → p.seek_offset_result 0 ≠ -1 → p.read_count = 4096 →
      (file_header_data p).take 4 = [0xef, 0xcd, 0xab, 0x89] →
      field_32bit (file_header_data p) 4
        = calculate_xor32 ((file_header_data p).drop 4) 0x89abcdef →
      (libesedb_io_handle_read_file_header (some h) (some old_page_size)).value = 1
      ∧ (libesedb_io_handle_read_file_header (some h) (some old_page_size)).page_size
        = some (field_32bit (file_header_data p) 236))
    ∧ (libesedb_io_handle_read_file_header
        (some (bound_io_handle (file_provider (valid_header 0 0 v)))) (some 0)).value = 1
    ∧ (libesedb_io_handle_read_file_header
        (some (bound_io_handle (file_provider (valid_header 0 0 v)))) (some 0)).page_size
      = some v := by
  refine ⟨?_, ?_⟩
  · intro h p old_page_size hp hseek hread hsig hck
    rw [read_file_header_of_accepted h p old_page_size hp ⟨hseek, hread, hsig, hck⟩]
    exact ⟨rfl, rfl⟩
  · rw [valid_header_read_nil 0 0 v (by decide) hv]
    exact ⟨rfl, rfl⟩

/-- C9 (witness): the theorem at the page size 0. -/
theorem read_file_header_returns_any_page_size_witness :
    0 < 2 ^ 32
    ∧ (libesedb_io_handle_read_file_header
        (some (bound_io_handle (file_provider (valid_header 0 0 0)))) (some 0)).value = 1
    ∧ (libesedb_io_handle_read_file_header
        (some (bound_io_handle (file_provider (valid_header 0 0 0)))) (some 0)).page_size
      = some 0 :=
  ⟨by decide, (read_file_header_returns_any_page_size 0 (by decide)).2⟩

/-! ## Fields of the header -/

/-- C10: whenever `libesedb_io_handle_read_file_header` returns 1, the io
handle is bound to a provider, and with `b` the 4096 header bytes read from
it the returned page size is the little-endian value of `b[236..240)` and the
io handle differs from the one before the call in its format version, the
little-endian value of `b[8..12)`, and its format revision, the little-endian
value of `b[232..236)`. -/
theorem read_file_header_fields (io_handle : Option libesedb_io_handle_t)
    (page_size : Option Nat)
    (hv : (libesedb_io_handle_read_file_header io_handle page_size).value = 1) :
    ∃ h p, io_handle = some h ∧ h.file_io_handle = some p
      ∧ (libesedb_io_handle_read_file_header io_handle page_size).page_size
        = some (endian_little_convert_32bit (byte_at (file_header_data p) 236)
            (byte_at (file_header_data p) 237) (byte_at (file_header_data p) 238)
            (byte_at (file_header_data p) 239))
      ∧ (libesedb_io_handle_read_file_header io_handle page_size).io_handle
        = some { h with
            format_version := endian_little_convert_32bit (byte_at (file_header_data p) 8)
              (byte_at (file_header_data p) 9) (byte_at (file_header_data p) 10)
              (byte_at (file_header_data p) 11)
            format_revision := endian_little_convert_32bit (byte_at (file_header_data p) 232)
              (byte_at (file_header_data p) 233) (byte_at (file_header_data p) 234)
              (byte_at (file_header_data p) 235) } := by
  match io_handle, page_size, hv with
  | none, _, hv => simp [libesedb_io_handle_read_file_header] at hv
  | some h, none, hv =>
      cases hp : h.file_io_handle <;> simp [libesedb_io_handle_read_file_header, hp] at hv
  | some h, some old, hv =>
      cases hp : h.file_io_handle with
      | none => simp [libesedb_io_handle_read_file_header, hp] at hv
      | some p =>
          have hacc := (read_file_header_value_iff h p old hp).mp hv
          refine ⟨h, p, rfl, hp, ?_, ?_⟩
          · rw [read_file_header_of_accepted h p old hp hacc]
            rfl
          · rw [read_file_header_of_accepted h p old hp hacc]
            rfl

/-- C10 (witness): the theorem at the provider over the header
`valid_header 0 17 8192`. -/
theorem read_file_header_fields_witness :
    (libesedb_io_handle_read_file_header
        (some (bound_io_handle (file_provider (valid_header 0 17 8192)))) (some 0)).value = 1
    ∧ ∃ h p, some (bound_io_handle (file_provider (valid_header 0 17 8192))) = some h
      ∧ h.file_io_handle = some p
      ∧ (libesedb_io_handle_read_file_header
          (some (bound_io_handle (file_provider (valid_header 0 17 8192)))) (some 0)).page_size
        = some (endian_little_convert_32bit (byte_at (file_header_data p) 236)
            (byte_at (file_header_data p) 237) (byte_at (file_header_data p) 238)
            (byte_at (file_header_data p) 239))
      ∧ (libesedb_io_handle_read_file_header
          (some (bound_io_handle (file_provider (valid_header 0 17 8192)))) (some 0)).io_handle
        = some { h with
            format_version := endian_little_convert_32bit (byte_at (file_header_data p) 8)
              (byte_at (file_header_data p) 9) (byte_at (file_header_data p) 10)
              (byte_at (file_header_data p) 11)
            format_revision := endian_little_convert_32bit (byte_at (file_header_data p) 232)
              (byte_at (file_header_data p) 233) (byte_at (file_header_data p) 234)
              (byte_at (file_header_data p) 235) } := by
  have hv : (libesedb_io_handle_read_file_header
      (some (bound_io_handle (file_provider (valid_header 0 17 8192)))) (some 0)).value = 1 := by
    rw [valid_header_read_nil 0 17 8192 (by decide) (by decide)]
  exact ⟨hv, read_file_header_fields _ _ hv⟩

theorem initialized_file_eq (p : libbfio_handle_t) :
    initialized_file = some { file_bound_to p with io_handle := some ⟨none, 0, 0, 0⟩ } := by
  rfl

/-- The flags pass the two checks of lines 519-541: the io handle of the
initialized file is bound to the provider, which is opened for reading, and
`libesedb_file_open_read` decides. -/
theorem open_file_io_handle_read (debug : Bool) (fuel : Nat) (p : libbfio_handle_t)
    (flags : Int) (hr : bit_and flags LIBESEDB_FLAG_READ = LIBESEDB_FLAG_READ)
    (hw : bit_and flags LIBESEDB_FLAG_WRITE ≠ LIBESEDB_FLAG_WRITE)
    (hopen : p.open_result LIBBFIO_FLAG_READ = 1) :
    libesedb_file_open_file_io_handle debug fuel initialized_file (some p) flags
      = match libesedb_file_open_read debug fuel (some (file_bound_to p)) with
        | none => none
        | some r2 =>
            if r2.value ≠ 1 then
              some ⟨-1, r2.state, r2.error ++ [⟨.IO_DOMAIN, .IO_ERROR_READ_FAILED,
                "libesedb_file_open_file_io_handle: unable to read from file handle.", []⟩],
                io_event.handle_open LIBBFIO_FLAG_READ :: r2.events⟩
            else
              some ⟨1, r2.state, [], io_event.handle_open LIBBFIO_FLAG_READ :: r2.events⟩ := by
  rw [initialized_file_eq p]
  simp only [libesedb_file_open_file_io_handle, hr, hw, libesedb_io_handle_open, hopen]
  simp [file_bound_to, bound_io_handle, hopen]

theorem open_file_io_handle_flags_rejected (debug : Bool) (fuel : Nat)
    (f : libesedb_internal_file_t) (p : libbfio_handle_t) (flags : Int)
    (h : ¬ (bit_and flags LIBESEDB_FLAG_READ = LIBESEDB_FLAG_READ
      ∧ bit_and flags LIBESEDB_FLAG_WRITE ≠ LIBESEDB_FLAG_WRITE)) :
    ∃ r, libesedb_file_open_file_io_handle debug fuel (some f) (some p) flags = some r
      ∧ r.value = -1 ∧ r.state = some f ∧ r.events = [] := by
  simp only [libesedb_file_open_file_io_handle]
  by_cases h1 : bit_and flags LIBESEDB_FLAG_READ ≠ LIBESEDB_FLAG_READ
      ∧ bit_and flags LIBESEDB_FLAG_WRITE ≠ LIBESEDB_FLAG_WRITE
  · rw [if_pos h1]
    exact ⟨_, rfl, rfl, rfl, rfl⟩
  · have h2 : bit_and flags LIBESEDB_FLAG_WRITE = LIBESEDB_FLAG_WRITE := by
      by_contra hw
      by_cases hr : bit_and flags LIBESEDB_FLAG_READ = LIBESEDB_FLAG_READ
      · exact h ⟨hr, hw⟩
      · exact h1 ⟨hr, hw⟩
    rw [if_neg h1, if_pos h2]
    exact ⟨_, rfl, rfl, rfl, rfl⟩

theorem example_database_accepted : header_accepted (file_provider example_database) :=
  valid_header_accepted 0 0 4096 (by decide) (by decide) _

theorem example_database_page_size : header_page_size (file_provider example_database) = 4096 :=
  valid_header_page_size 0 0 4096 (by decide) _

theorem example_database_size : (file_provider example_database).file_size = 12288 := by
  show (valid_header 0 0 4096 ++ List.replicate (4 * 2048) 0).length = 12288
  rw [List.length_append, valid_header_length, List.length_replicate]

theorem file_header_data_congr (p q : libbfio_handle_t) (h : q.read_data = p.read_data) :
    file_header_data q = file_header_data p := by
  unfold file_header_data
  rw [h]

theorem header_accepted_congr (p q : libbfio_handle_t)
    (h1 : q.seek_offset_result = p.seek_offset_result) (h2 : q.read_count = p.read_count)
    (h3 : q.read_data = p.read_data) (hacc : header_accepted p) : header_accepted q := by
  unfold header_accepted at hacc ⊢
  rw [file_header_data_congr p q h3, h1, h2]
  exact hacc

theorem failing_page_provider_accepted : header_accepted failing_page_provider :=
  header_accepted_congr (file_provider (valid_header 0 0 4096 ++ List.replicate (4 * 3072) 0))
    failing_page_provider rfl rfl rfl (valid_header_accepted 0 0 4096 (by decide) (by decide) _)

theorem failing_page_provider_page_size : header_page_size failing_page_provider = 4096 := by
  unfold header_page_size
  rw [file_header_data_congr
    (file_provider (valid_header 0 0 4096 ++ List.replicate (4 * 3072) 0))
    failing_page_provider rfl]
  exact valid_header_page_size 0 0 4096 (by decide) _

theorem failing_page_provider_size : failing_page_provider.file_size = 16384 := by
  show (valid_header 0 0 4096 ++ List.replicate (4 * 3072) 0).length = 16384
  rw [List.length_append, valid_header_length, List.length_replicate]

/-- The debug build reads the `n` pages of a file that ends with the last
of them, and returns 1. -/
theorem open_read_pages (fuel n : Nat) (f : libesedb_internal_file_t)
    (h : libesedb_io_handle_t) (p : libbfio_handle_t) (hf : f.io_handle = some h)
    (hp : h.file_io_handle = some p) (hacc : header_accepted p)
    (hget : p.get_size_result = 1) (hfuel : n < fuel)
    (hhi : 2 * (header_page_size p : Int) + n * header_page_size p < 9223372036854775808)
    (hlt : ∀ m, m < n →
      2 * (header_page_size p : Int) + m * header_page_size p < off64_t p.file_size)
    (hend : ¬ (2 * (header_page_size p : Int) + n * header_page_size p < off64_t p.file_size))
    (hok : ∀ m, m < n → p.page_read_result
      (2 * (header_page_size p : Int) + m * header_page_size p) (header_page_size p) = 1) :
    libesedb_file_open_read true fuel (some f)
      = some ⟨1, some (file_after_header f h p), [],
          [.seek_offset 0, .read 4096, .get_size]
            ++ page_reads (2 * header_page_size p) (header_page_size p) n⟩ := by
  rw [open_read_debug fuel f h p hf hp hacc hget,
    open_read_loop_success p _ _ n fuel _ _ hfuel (by omega) hhi hlt hend hok]
  rfl

/-- The debug build returns -1 at the first page whose read fails. -/
theorem open_read_page_failure (fuel n : Nat) (f : libesedb_internal_file_t)
    (h : libesedb_io_handle_t) (p : libbfio_handle_t) (hf : f.io_handle = some h)
    (hp : h.file_io_handle = some p) (hacc : header_accepted p)
    (hget : p.get_size_result = 1) (hfuel : n < fuel)
    (hlt : ∀ m, m ≤ n →
      2 * (header_page_size p : Int) + m * header_page_size p < off64_t p.file_size)
    (hok : ∀ m, m < n → p.page_read_result
      (2 * (header_page_size p : Int) + m * header_page_size p) (header_page_size p) = 1)
    (hbad : p.page_read_result
      (2 * (header_page_size p : Int) + n * header_page_size p) (header_page_size p) ≠ 1) :
    libesedb_file_open_read true fuel (some f)
      = some ⟨-1, some (file_after_header f h p), [⟨.IO_DOMAIN, .IO_ERROR_READ_FAILED,
          "libesedb_file_open_read: unable to read page.", []⟩],
          [.seek_offset 0, .read 4096, .get_size]
            ++ page_reads (2 * header_page_size p) (header_page_size p) (n + 1)⟩ := by
  rw [open_read_debug fuel f h p hf hp hacc hget,
    open_read_loop_failure p _ _ n fuel _ _ hfuel (by omega) hlt hok hbad]
  rfl

/-- Opening a file of `2 * page_size + k * page_size` bytes, all pages
readable: the outcome of `libesedb_file_open_file_io_handle` in the debug
build. -/
theorem open_file_io_handle_pages (fuel k : Nat) (p : libbfio_handle_t)
    (hopen : p.open_result LIBBFIO_FLAG_READ = 1) (hacc : header_accepted p)
    (hps : 0 < header_page_size p)
    (hsize : p.file_size = 2 * header_page_size p + k * header_page_size p)
    (hbound : p.file_size < 2 ^ 63) (hget : p.get_size_result = 1)
    (hpages : ∀ n, n < k → p.page_read_result
      (2 * (header_page_size p : Int) + n * header_page_size p) (header_page_size p) = 1)
    (hfuel : k < fuel) :
    libesedb_file_open_file_io_handle true fuel initialized_file (some p) LIBESEDB_FLAG_READ
      = some ⟨1, some (file_after_header (file_bound_to p) (bound_io_handle p) p), [],
          io_event.handle_open LIBBFIO_FLAG_READ :: ([.seek_offset 0, .read 4096, .get_size]
            ++ page_reads (2 * header_page_size p) (header_page_size p) k)⟩ := by
  have hS : off64_t p.file_size = 2 * (header_page_size p : Int) + k * header_page_size p := by
    rw [off64_t_eq _ (by omega) (by omega), hsize]
    push_cast
    ring
  rw [open_file_io_handle_read true fuel p _ (by decide) (by decide) hopen,
    open_read_pages fuel k (file_bound_to p) (bound_io_handle p) p rfl rfl hacc hget hfuel
      (by rw [← hS]; exact off64_t_lt _)
      (by
        intro m hm
        rw [hS]
        have h1 : m * header_page_size p < k * header_page_size p :=
          Nat.mul_lt_mul_of_pos_right hm hps
        have h2 : (m : Int) * header_page_size p < (k : Int) * header_page_size p := by
          exact_mod_cast h1
        omega)
      (by rw [hS]; omega) hpages]
  rfl

/-! ## Flags that are accepted -/

/-- C6 (counterexample): on the initialized file and the provider over
`example_database`, `libesedb_file_open_file_io_handle` returns 1 for the
flags value 5, which is not the flags value Read; so it does in the debug
build. -/
theorem open_accepts_flags_with_other_bits :
    (5 : Int) ≠ LIBESEDB_FLAG_READ
    ∧ (libesedb_file_open_file_io_handle false 0 initialized_file
        (some (file_provider example_database)) 5).map (fun r => r.value) = some 1
    ∧ (libesedb_file_open_file_io_handle true 2 initialized_file
        (some (file_provider example_database)) 5).map (fun r => r.value) = some 1 := by
  refine ⟨by decide, ?_, ?_⟩
  · rw [open_file_io_handle_read false 0 _ 5 (by decide) (by decide) rfl,
      open_read_no_debug 0 _ _ _ rfl rfl example_database_accepted]
    rfl
  · rw [open_file_io_handle_read true 2 _ 5 (by decide) (by decide) rfl,
      open_read_pages 2 1 _ _ _ rfl rfl example_database_accepted rfl (by decide)
        (by rw [example_database_page_size]; decide)
        (by
          intro m hm
          obtain rfl : m = 0 := by omega
          rw [example_database_page_size, example_database_size]
          decide)
        (by rw [example_database_page_size, example_database_size]; decide)
        (fun _ _ => rfl)]
    rfl

/-- C6 (amended): on the initialized file and a provider that opens for
reading and has an accepted header (in the debug build also: the size can be
retrieved, the page size is not 0, every page can be read, file size plus
page size is at most 2^63, and the fuel exceeds the file size),
`libesedb_file_open_file_io_handle` returns, and it returns 1 exactly when
the Read bit of the flags is set and the Write bit is not; the other bits of
the flags are not looked at.  Of the four flags values 0, Read, Write and
Read|Write exactly Read is accepted. -/
theorem open_file_io_handle_succeeds_iff (debug : Bool) (fuel : Nat) (p : libbfio_handle_t)
    (flags : Int) (hopen : p.open_result LIBBFIO_FLAG_READ = 1) (hacc : header_accepted p)
    (hdebug : debug = true → p.get_size_result = 1 ∧ 0 < header_page_size p
      ∧ (∀ off, p.page_read_result off (header_page_size p) = 1)
      ∧ (p.file_size : Int) + header_page_size p ≤ 9223372036854775808
      ∧ p.file_size < fuel) :
    ∃ r, libesedb_file_open_file_io_handle debug fuel initialized_file (some p) flags = some r
      ∧ (r.value = 1 ↔ bit_and flags LIBESEDB_FLAG_READ = LIBESEDB_FLAG_READ
          ∧ bit_and flags LIBESEDB_FLAG_WRITE ≠ LIBESEDB_FLAG_WRITE)
      ∧ (flags = 0 ∨ flags = LIBESEDB_FLAG_READ ∨ flags = LIBESEDB_FLAG_WRITE
          ∨ flags = bit_or LIBESEDB_FLAG_READ LIBESEDB_FLAG_WRITE →
          (r.value = 1 ↔ flags = LIBESEDB_FLAG_READ)) := by
  suffices hmain : ∃ r,
      libesedb_file_open_file_io_handle debug fuel initialized_file (some p) flags = some r
      ∧ (r.value = 1 ↔ bit_and flags LIBESEDB_FLAG_READ = LIBESEDB_FLAG_READ
          ∧ bit_and flags LIBESEDB_FLAG_WRITE ≠ LIBESEDB_FLAG_WRITE) by
    obtain ⟨r, hr, hiff⟩ := hmain
    refine ⟨r, hr, hiff, ?_⟩
    rintro (rfl | rfl | rfl | rfl)
    · rw [hiff]
      decide
    · rw [hiff]
      decide
    · rw [hiff]
      decide
    · rw [hiff]
      decide
  by_cases hflags : bit_and flags LIBESEDB_FLAG_READ = LIBESEDB_FLAG_READ
      ∧ bit_and flags LIBESEDB_FLAG_WRITE ≠ LIBESEDB_FLAG_WRITE
  · rw [open_file_io_handle_read debug fuel p flags hflags.1 hflags.2 hopen]
    cases debug with
    | false =>
        rw [open_read_no_debug fuel _ _ _ rfl rfl hacc]
        exact ⟨_, rfl, fun _ => hflags, fun _ => rfl⟩
    | true =>
        obtain ⟨hget, hps, hok, hsize, hfuel⟩ := hdebug rfl
        have hS : off64_t p.file_size = p.file_size := off64_t_eq _ (by omega) (by omega)
        obtain ⟨evs, hloop⟩ := open_read_loop_terminates p (header_page_size p) p.file_size hps
          (by rw [hS]; exact hsize) hok fuel (2 * (header_page_size p : Int))
          [.seek_offset 0, .read 4096, .get_size] (by omega) (by rw [hS]; omega)
        rw [open_read_debug fuel _ _ _ rfl rfl hacc hget, hloop]
        exact ⟨_, rfl, fun _ => hflags, fun _ => rfl⟩
  · obtain ⟨r, hr, hv, _, _⟩ :=
      open_file_io_handle_flags_rejected debug fuel _ p flags hflags
    rw [initialized_file_eq p]
    refine ⟨r, hr, ?_⟩
    rw [hv]
    constructor
    · intro h
      exact absurd h (by decide)
    · intro h
      exact absurd h hflags

/-- C6 (witness): the theorem at the debug build, the provider over
`example_database` and the flags Read. -/
theorem open_file_io_handle_succeeds_iff_witness :
    (file_provider example_database).open_result LIBBFIO_FLAG_READ = 1
    ∧ header_accepted (file_provider example_database)
    ∧ (true = true → (file_provider example_database).get_size_result = 1
      ∧ 0 < header_page_size (file_provider example_database)
      ∧ (∀ off, (file_provider example_database).page_read_result off
          (header_page_size (file_provider example_database)) = 1)
      ∧ ((file_provider example_database).file_size : Int)
          + header_page_size (file_provider example_database) ≤ 9223372036854775808
      ∧ (file_provider example_database).file_size < 12289)
    ∧ ∃ r, libesedb_file_open_file_io_handle true 12289 initialized_file
          (some (file_provider example_database)) LIBESEDB_FLAG_READ = some r
      ∧ (r.value = 1 ↔ bit_and LIBESEDB_FLAG_READ LIBESEDB_FLAG_READ = LIBESEDB_FLAG_READ
          ∧ bit_and LIBESEDB_FLAG_READ LIBESEDB_FLAG_WRITE ≠ LIBESEDB_FLAG_WRITE)
      ∧ (LIBESEDB_FLAG_READ = 0 ∨ LIBESEDB_FLAG_READ = LIBESEDB_FLAG_READ
          ∨ LIBESEDB_FLAG_READ = LIBESEDB_FLAG_WRITE
          ∨ LIBESEDB_FLAG_READ = bit_or LIBESEDB_FLAG_READ LIBESEDB_FLAG_WRITE →
          (r.value = 1 ↔ LIBESEDB_FLAG_READ = LIBESEDB_FLAG_READ)) := by
  have hdebug : true = true → (file_provider example_database).get_size_result = 1
      ∧ 0 < header_page_size (file_provider example_database)
      ∧ (∀ off, (file_provider example_database).page_read_result off
          (header_page_size (file_provider example_database)) = 1)
      ∧ ((file_provider example_database).file_size : Int)
          + header_page_size (file_provider example_database) ≤ 9223372036854775808
      ∧ (file_provider example_database).file_size < 12289 := by
    intro _
    rw [example_database_page_size, example_database_size]
    exact ⟨rfl, by decide, fun _ => rfl, by decide, by decide⟩
  exact ⟨rfl, example_database_accepted, hdebug,
    open_file_io_handle_succeeds_iff true 12289 (file_provider example_database)
      LIBESEDB_FLAG_READ rfl example_database_accepted hdebug⟩

/-! ## The page table after open -/

/-- C7 (counterexample): opening `example_database`, a file of
`2 * 4096 + 1 * 4096` bytes with page size 4096, in the debug build returns 1,
reads the page at offset 8192 and leaves the page table with no entry, not
with one entry. -/
theorem open_records_no_page_entry :
    (file_provider example_database).file_size = 2 * 4096 + 1 * 4096
    ∧ header_page_size (file_provider example_database) = 4096
    ∧ (libesedb_file_open_file_io_handle true 2 initialized_file
        (some (file_provider example_database)) LIBESEDB_FLAG_READ).map
        (fun r => (r.value, r.state.bind (fun f => f.page_table), r.events))
      = some (1, some [], [.handle_open 1, .seek_offset 0, .read 4096, .get_size,
          .page_read 8192 4096]) := by
  refine ⟨example_database_size, example_database_page_size, ?_⟩
  rw [open_file_io_handle_pages 2 1 (file_provider example_database) rfl
    example_database_accepted (by rw [example_database_page_size]; decide)
    (by rw [example_database_page_size, example_database_size])
    (by rw [example_database_size]; decide) rfl (fun _ _ => rfl) (by decide),
    example_database_page_size]
  rfl

/-- C7 (amended): for every accepted header with page size `p` and every `k`,
opening a file of exactly `2 * p + k * p` bytes (below 2^63) whose pages can
be read returns 1 and leaves the page table of the initialized file as it
was, with no entry; with `p > 0` the debug build reads the `k` pages at the
offsets `2 * p + n * p`, `n < k`, in this order, but records none of them. -/
theorem open_leaves_page_table_empty (debug : Bool) (fuel k : Nat) (p : libbfio_handle_t)
    (hopen : p.open_result LIBBFIO_FLAG_READ = 1) (hacc : header_accepted p)
    (hsize : p.file_size = 2 * header_page_size p + k * header_page_size p)
    (hbound : p.file_size < 2 ^ 63) (hget : p.get_size_result = 1)
    (hpages : ∀ n, n < k → p.page_read_result
      (2 * (header_page_size p : Int) + n * header_page_size p) (header_page_size p) = 1)
    (hfuel : k < fuel) :
    ∃ r, libesedb_file_open_file_io_handle debug fuel initialized_file (some p)
          LIBESEDB_FLAG_READ = some r
      ∧ r.value = 1 ∧ r.state.bind (fun f => f.page_table) = some []
      ∧ (debug = true → 0 < header_page_size p →
          r.events = [.handle_open LIBBFIO_FLAG_READ, .seek_offset 0, .read 4096, .get_size]
            ++ page_reads (2 * header_page_size p) (header_page_size p) k) := by
  cases debug with
  | false =>
      rw [open_file_io_handle_read false fuel p _ (by decide) (by decide) hopen,
        open_read_no_debug fuel _ _ _ rfl rfl hacc]
      exact ⟨_, rfl, rfl, rfl, fun h => absurd h (by decide)⟩
  | true =>
      by_cases hps : 0 < header_page_size p
      · rw [open_file_io_handle_pages fuel k p hopen hacc hps hsize hbound hget hpages hfuel]
        exact ⟨_, rfl, rfl, rfl, fun _ _ => rfl⟩
      · have h0 : header_page_size p = 0 := by omega
        have hz : p.file_size = 0 := by
          rw [hsize, h0]
          omega
        have hS : off64_t p.file_size = 0 := by
          rw [hz, Nat.cast_zero]
          exact off64_t_eq 0 (by omega) (by omega)
        rw [open_file_io_handle_read true fuel p _ (by decide) (by decide) hopen,
          open_read_pages fuel 0 _ _ _ rfl rfl hacc hget (by omega)
            (by rw [h0]; simp) (fun m hm => absurd hm (by omega))
            (by rw [hS, h0]; simp) (fun m hm => absurd hm (by omega))]
        exact ⟨_, rfl, rfl, rfl, fun _ h => absurd h hps⟩

/-- C7 (witness): the theorem at the debug build, the provider over
`example_database` and `k = 1`. -/
theorem open_leaves_page_table_empty_witness :
    (file_provider example_database).open_result LIBBFIO_FLAG_READ = 1
    ∧ header_accepted (file_provider example_database)
    ∧ (file_provider example_database).file_size
        = 2 * header_page_size (file_provider example_database)
          + 1 * header_page_size (file_provider example_database)
    ∧ (file_provider example_database).file_size < 2 ^ 63
    ∧ (file_provider example_database).get_size_result = 1
    ∧ ∃ r, libesedb_file_open_file_io_handle true 2 initialized_file
          (some (file_provider example_database)) LIBESEDB_FLAG_READ = some r
      ∧ r.value = 1 ∧ r.state.bind (fun f => f.page_table) = some []
      ∧ (true = true → 0 < header_page_size (file_provider example_database) →
          r.events = [.handle_open LIBBFIO_FLAG_READ, .seek_offset 0, .read 4096, .get_size]
            ++ page_reads (2 * header_page_size (file_provider example_database))
                (header_page_size (file_provider example_database)) 1) := by
  have hsize : (file_provider example_database).file_size
      = 2 * header_page_size (file_provider example_database)
        + 1 * header_page_size (file_provider example_database) := by
    rw [example_database_page_size, example_database_size]
  have hbound : (file_provider example_database).file_size < 2 ^ 63 := by
    rw [example_database_size]
    decide
  exact ⟨rfl, example_database_accepted, hsize, hbound, rfl,
    open_leaves_page_table_empty true 2 1 (file_provider example_database) rfl
      example_database_accepted hsize hbound rfl (fun _ _ => rfl) (by decide)⟩

/-! ## A page that cannot be read -/

/-- C8 (counterexample): in the debug build, on a file with a valid header
and the two pages at the offsets 8192 and 12288 of which only the first
cannot be read, `libesedb_file_open_read` returns -1, not 1, and the page at
offset 12288 is not read. -/
theorem page_failure_ends_open :
    failing_page_provider.page_read_result 8192 4096 ≠ 1
    ∧ failing_page_provider.page_read_result 12288 4096 = 1
    ∧ (12288 : Int) < off64_t failing_page_provider.file_size
    ∧ (libesedb_file_open_read true 3 (some (file_bound_to failing_page_provider))).map
        (fun r => (r.value, r.events))
      = some (-1, [.seek_offset 0, .read 4096, .get_size, .page_read 8192 4096]) := by
  refine ⟨by decide, by decide, by rw [failing_page_provider_size]; decide, ?_⟩
  rw [open_read_page_failure 3 0 _ _ failing_page_provider rfl rfl
    failing_page_provider_accepted rfl (by decide)
    (by
      intro m hm
      obtain rfl : m = 0 := by omega
      rw [failing_page_provider_page_size, failing_page_provider_size]
      decide)
    (fun m hm => absurd hm (by omega))
    (by rw [failing_page_provider_page_size]; decide),
    failing_page_provider_page_size]
  rfl

/-- C8 (amended): a per-page failure during the page walk is fatal to open.
In the debug build, when the header is accepted and the first `n` pages can
be read but the read of page `n` (inside the file) fails,
`libesedb_file_open_read` returns -1 with the read-failed error of the IO
domain right after that read: no later page is read, and the page table is
as before, no page is tagged.  In the build without debug output no page is
read at all and 1 is returned. -/
theorem page_failure_is_fatal (fuel n : Nat) (f : libesedb_internal_file_t)
    (h : libesedb_io_handle_t) (p : libbfio_handle_t) (hf : f.io_handle = some h)
    (hp : h.file_io_handle = some p) (hacc : header_accepted p)
    (hget : p.get_size_result = 1) (hfuel : n < fuel)
    (hlt : ∀ m, m ≤ n →
      2 * (header_page_size p : Int) + m * header_page_size p < off64_t p.file_size)
    (hok : ∀ m, m < n → p.page_read_result
      (2 * (header_page_size p : Int) + m * header_page_size p) (header_page_size p) = 1)
    (hbad : p.page_read_result
      (2 * (header_page_size p : Int) + n * header_page_size p) (header_page_size p) ≠ 1) :
    libesedb_file_open_read true fuel (some f)
      = some ⟨-1, some { f with io_handle := some { h with
            format_version := field_32bit (file_header_data p) 8
            format_revision := field_32bit (file_header_data p) 232 } },
          [⟨.IO_DOMAIN, .IO_ERROR_READ_FAILED, "libesedb_file_open_read: unable to read page.", []⟩],
          [.seek_offset 0, .read 4096, .get_size]
            ++ page_reads (2 * header_page_size p) (header_page_size p) (n + 1)⟩
    ∧ libesedb_file_open_read false fuel (some f)
      = some ⟨1, some { f with io_handle := some { h with
            format_version := field_32bit (file_header_data p) 8
            format_revision := field_32bit (file_header_data p) 232 } },
          [], [.seek_offset 0, .read 4096]⟩ :=
  ⟨open_read_page_failure fuel n f h p hf hp hacc hget hfuel hlt hok hbad,
    open_read_no_debug fuel f h p hf hp hacc⟩

/-- C8 (witness): the theorem at `failing_page_provider`, whose first page
cannot be read. -/
theorem page_failure_is_fatal_witness :
    header_accepted failing_page_provider
    ∧ failing_page_provider.get_size_result = 1
    ∧ failing_page_provider.page_read_result
        (2 * (header_page_size failing_page_provider : Int)
          + (0 : Nat) * header_page_size failing_page_provider)
        (header_page_size failing_page_provider) ≠ 1
    ∧ (libesedb_file_open_read true 3 (some (file_bound_to failing_page_provider))).map
        (fun r => r.value) = some (-1)
    ∧ (libesedb_file_open_read false 3 (some (file_bound_to failing_page_provider))).map
        (fun r => r.value) = some 1 := by
  have hlt : ∀ m : Nat, m ≤ 0 → 2 * (header_page_size failing_page_provider : Int)
      + m * header_page_size failing_page_provider < off64_t failing_page_provider.file_size := by
    intro m hm
    obtain rfl : m = 0 := by omega
    rw [failing_page_provider_page_size, failing_page_provider_size]
    decide
  have hbad : failing_page_provider.page_read_result
      (2 * (header_page_size failing_page_provider : Int)
        + (0 : Nat) * header_page_size failing_page_provider)
      (header_page_size failing_page_provider) ≠ 1 := by
    rw [failing_page_provider_page_size]
    decide
  have key := page_failure_is_fatal 3 0 (file_bound_to failing_page_provider)
    (bound_io_handle failing_page_provider) failing_page_provider rfl rfl
    failing_page_provider_accepted rfl (by decide) hlt (fun m hm => absurd hm (by omega)) hbad
  refine ⟨failing_page_provider_accepted, rfl, hbad, ?_, ?_⟩
  · rw [key.1]
    rfl
  · rw [key.2]
    rfl

/-- A call of `libesedb_io_handle_read_file_header` that does not return 1
leaves the io handle and the caller's page size as they were. -/
theorem read_file_header_unchanged (io_handle : Option libesedb_io_handle_t)
    (page_size : Option Nat)
    (hv : (libesedb_io_handle_read_file_header io_handle page_size).value ≠ 1) :
    (libesedb_io_handle_read_file_header io_handle page_size).io_handle = io_handle
    ∧ (libesedb_io_handle_read_file_header io_handle page_size).page_size = page_size := by
  match io_handle, page_size, hv with
  | none, _, _ => exact ⟨rfl, rfl⟩
  | some h, page_size, hv =>
      cases hp : h.file_io_handle with
      | none => simp [libesedb_io_handle_read_file_header, hp]
      | some p =>
          cases page_size with
          | none => simp [libesedb_io_handle_read_file_header, hp]
          | some old =>
              by_cases hacc : header_accepted p
              · rw [read_file_header_of_accepted h p old hp hacc] at hv
                exact absurd rfl hv
              · by_cases hseek : p.seek_offset_result 0 = -1
                · simp [libesedb_io_handle_read_file_header, hp, hseek]
                · by_cases hread : p.read_count = 4096
                  · rw [read_file_header_checks h p old hp hseek hread]
                    by_cases hsig : (file_header_data p).take 4 = esedb_file_signature
                    · by_cases hck : field_32bit (file_header_data p) 4
                          = calculate_xor32 ((file_header_data p).drop 4) 0x89abcdef
                      · exact absurd ⟨hseek, hread, hsig, hck⟩ hacc
                      · rw [if_neg (by simpa using hsig), if_pos hck]
                        exact ⟨rfl, rfl⟩
                    · rw [if_pos hsig]
                      exact ⟨rfl, rfl⟩
                  · simp [libesedb_io_handle_read_file_header, hp, hseek, hread]

/-- When the header is not accepted `libesedb_file_open_read` returns -1 and
the file is as before. -/
theorem open_read_header_rejected (debug : Bool) (fuel : Nat) (f : libesedb_internal_file_t)
    (h : libesedb_io_handle_t) (p : libbfio_handle_t) (hf : f.io_handle = some h)
    (hp : h.file_io_handle = some p) (hacc : ¬ header_accepted p) :
    libesedb_file_open_read debug fuel (some f)
      = some ⟨-1, some f,
          (libesedb_io_handle_read_file_header (some h) (some 0)).error
            ++ [⟨.IO_DOMAIN, .IO_ERROR_READ_FAILED,
              "libesedb_file_open_read: unable to read file header.", []⟩],
          (libesedb_io_handle_read_file_header (some h) (some 0)).events⟩ := by
  have hv : (libesedb_io_handle_read_file_header (some h) (some 0)).value ≠ 1 :=
    fun e => hacc ((read_file_header_value_iff h p 0 hp).mp e)
  have hio := (read_file_header_unchanged (some h) (some 0) hv).1
  simp only [libesedb_file_open_read, hf]
  rw [if_pos hv, hio, ← hf]

/-- On a file whose io handle is bound to a provider, flags that pass the
two checks of lines 519-541 reach `libesedb_io_handle_open`, which fails:
the file is as before and no provider operation is invoked. -/
theorem open_file_io_handle_already_bound (debug : Bool) (fuel : Nat)
    (f : libesedb_internal_file_t) (h : libesedb_io_handle_t) (p q : libbfio_handle_t)
    (flags : Int) (hf : f.io_handle = some h) (hp : h.file_io_handle = some p)
    (hr : bit_and flags LIBESEDB_FLAG_READ = LIBESEDB_FLAG_READ)
    (hw : bit_and flags LIBESEDB_FLAG_WRITE ≠ LIBESEDB_FLAG_WRITE) :
    libesedb_file_open_file_io_handle debug fuel (some f) (some q) flags
      = some ⟨-1, some f, [⟨.RUNTIME_DOMAIN, .RUNTIME_ERROR_VALUE_ALREADY_SET,
          "libesedb_io_handle_open: invalid io handle - file io handle already set.", []⟩,
          ⟨.IO_DOMAIN, .IO_ERROR_OPEN_FAILED,
            "libesedb_file_open_file_io_handle: unable to open file handle.", []⟩], []⟩ := by
  simp only [libesedb_file_open_file_io_handle, hr, hw, hf, libesedb_io_handle_open, hp]
  simp [← hf]

/-- The events of a header read that fails at the signature or at the
checksum. -/
theorem read_file_header_events (h : libesedb_io_handle_t) (p : libbfio_handle_t)
    (old_page_size : Nat) (hp : h.file_io_handle = some p)
    (hseek : p.seek_offset_result 0 ≠ -1) (hread : p.read_count = 4096) :
    (libesedb_io_handle_read_file_header (some h) (some old_page_size)).events
      = [.seek_offset 0, .read 4096] := by
  rw [read_file_header_checks h p old_page_size hp hseek hread]
  split_ifs <;> rfl

/-- The first open over a provider whose header is read but not accepted. -/
theorem open_file_io_handle_header_rejected (debug : Bool) (fuel : Nat) (p : libbfio_handle_t)
    (hopen : p.open_result LIBBFIO_FLAG_READ = 1) (hseek : p.seek_offset_result 0 ≠ -1)
    (hread : p.read_count = 4096) (hacc : ¬ header_accepted p) :
    ∃ r, libesedb_file_open_file_io_handle debug fuel initialized_file (some p)
          LIBESEDB_FLAG_READ = some r
      ∧ r.value = -1 ∧ r.state = some (file_bound_to p)
      ∧ r.events = [.handle_open LIBBFIO_FLAG_READ, .seek_offset 0, .read 4096] := by
  rw [open_file_io_handle_read debug fuel p _ (by decide) (by decide) hopen,
    open_read_header_rejected debug fuel (file_bound_to p) (bound_io_handle p) p rfl rfl hacc,
    read_file_header_events _ p 0 rfl hseek hread]
  exact ⟨_, rfl, rfl, rfl, rfl⟩

/-! ## A short read of the header -/

/-- C11: when the provider bound in the io handle returns a count other than
4096 for the read of the header, `libesedb_io_handle_read_file_header`
returns -1; the io handle and the caller's page size are as before, no page
size is returned; the error is not the one of the signature or of the
checksum (it is the read failure when the seek succeeded and the page size
pointer is not NULL); and the outcome does not depend on the bytes the read
put into the buffer, so neither the signature nor the checksum was looked
at. -/
theorem short_read_fails (h : libesedb_io_handle_t) (p : libbfio_handle_t)
    (page_size : Option Nat) (hp : h.file_io_handle = some p) (hread : p.read_count ≠ 4096) :
    (libesedb_io_handle_read_file_header (some h) page_size).value = -1
    ∧ (libesedb_io_handle_read_file_header (some h) page_size).page_size = page_size
    ∧ (libesedb_io_handle_read_file_header (some h) page_size).io_handle = some h
    ∧ (.RUNTIME_DOMAIN, .RUNTIME_ERROR_UNSUPPORTED_VALUE)
        ∉ error_kinds (libesedb_io_handle_read_file_header (some h) page_size).error
    ∧ (.INPUT_DOMAIN, .INPUT_ERROR_CRC_MISMATCH)
        ∉ error_kinds (libesedb_io_handle_read_file_header (some h) page_size).error
    ∧ (p.seek_offset_result 0 ≠ -1 → page_size ≠ none →
        (libesedb_io_handle_read_file_header (some h) page_size).error
          = [⟨.IO_DOMAIN, .IO_ERROR_READ_FAILED,
              "libesedb_io_handle_read_file_header: unable to read file header.", []⟩]
        ∧ (libesedb_io_handle_read_file_header (some h) page_size).events
          = [.seek_offset 0, .read 4096])
    ∧ (∀ data : List uint8_t,
        (libesedb_io_handle_read_file_header
            (some { h with file_io_handle := some { p with read_data := data } }) page_size).value
          = (libesedb_io_handle_read_file_header (some h) page_size).value
        ∧ (libesedb_io_handle_read_file_header
            (some { h with file_io_handle := some { p with read_data := data } }) page_size).error
          = (libesedb_io_handle_read_file_header (some h) page_size).error
        ∧ (libesedb_io_handle_read_file_header
            (some { h with file_io_handle := some { p with read_data := data } })
              page_size).page_size
          = (libesedb_io_handle_read_file_header (some h) page_size).page_size) := by
  cases page_size with
  | none =>
      simp [libesedb_io_handle_read_file_header, hp, error_kinds]
  | some old =>
      by_cases hseek : p.seek_offset_result 0 = -1
      · simp [libesedb_io_handle_read_file_header, hp, hseek, error_kinds]
      · simp [libesedb_io_handle_read_file_header, hp, hseek, hread, error_kinds]

/-- C11 (witness): the theorem at a file of 100 zero bytes, shorter than
4096 bytes. -/
theorem short_read_fails_witness :
    (file_provider (List.replicate 100 0)).read_count ≠ 4096
    ∧ (libesedb_io_handle_read_file_header
        (some (bound_io_handle (file_provider (List.replicate 100 0)))) (some 7)).value = -1
    ∧ (libesedb_io_handle_read_file_header
        (some (bound_io_handle (file_provider (List.replicate 100 0)))) (some 7)).page_size
      = some 7 := by
  have hread : (file_provider (List.replicate 100 0)).read_count ≠ 4096 := by
    show Int.ofNat (min 4096 (List.replicate 100 (0 : uint8_t)).length) ≠ 4096
    rw [List.length_replicate]
    decide
  have key := short_read_fails (bound_io_handle (file_provider (List.replicate 100 0)))
    (file_provider (List.replicate 100 0)) (some 7) rfl hread
  exact ⟨hread, key.1, key.2.1⟩

/-! ## Binding a provider twice -/

/-- C12: on an io handle that is bound to a provider `libesedb_io_handle_open`
returns -1 with the value-already-set error of the runtime domain, invokes no
operation of a provider (the open of the new one neither), and leaves the io
handle, its binding included, as it was. -/
theorem io_handle_open_is_one_shot (h : libesedb_io_handle_t) (p : libbfio_handle_t)
    (file_io_handle : Option libbfio_handle_t) (flags : Int)
    (hp : h.file_io_handle = some p) :
    libesedb_io_handle_open (some h) file_io_handle flags
      = ⟨-1, some h, [⟨.RUNTIME_DOMAIN, .RUNTIME_ERROR_VALUE_ALREADY_SET,
          "libesedb_io_handle_open: invalid io handle - file io handle already set.", []⟩],
          []⟩ := by
  simp only [libesedb_io_handle_open, hp]

/-- C12 (witness): the theorem at an io handle bound to the provider over
`example_database` and a new provider over another file. -/
theorem io_handle_open_is_one_shot_witness :
    (bound_io_handle (file_provider example_database)).file_io_handle
      = some (file_provider example_database)
    ∧ libesedb_io_handle_open (some (bound_io_handle (file_provider example_database)))
        (some (file_provider bad_signature_header)) LIBBFIO_FLAG_READ
      = ⟨-1, some (bound_io_handle (file_provider example_database)),
          [⟨.RUNTIME_DOMAIN, .RUNTIME_ERROR_VALUE_ALREADY_SET,
            "libesedb_io_handle_open: invalid io handle - file io handle already set.", []⟩],
          []⟩ :=
  ⟨rfl, io_handle_open_is_one_shot _ (file_provider example_database) _ _ rfl⟩

/-! ## The initialized file -/

/-- C16: `libesedb_file_initialize` on a NULL file slot returns 1 and creates
a handle with the ASCII codepage Windows-1250, the abort flag 0, a page table
without entries and an io handle without a provider (all its fields zero);
on this handle `libesedb_file_get_ascii_codepage` returns 1, stores
Windows-1250 in the caller's variable and leaves the handle as it is. -/
theorem initialize_then_get_ascii_codepage (ascii_codepage : Int) :
    libesedb_file_initialize (some none)
      = ⟨1, some (some
          { page_table := some [],
            io_handle := some { file_io_handle := none, handle_created_in_library := 0,
                                format_version := 0, format_revision := 0 },
            ascii_codepage := LIBESEDB_CODEPAGE_WINDOWS_1250,
            abort := 0 }), [], []⟩
    ∧ initialized_file = Option.getD ( libesedb_file_initialize (some none)).state none
    ∧ libesedb_file_get_ascii_codepage initialized_file (some ascii_codepage)
      = ⟨1, (initialized_file, some LIBESEDB_CODEPAGE_WINDOWS_1250), [], []⟩
    ∧ LIBESEDB_CODEPAGE_WINDOWS_1250 = 1250 :=
  ⟨rfl, rfl, rfl, rfl⟩

/-! ## Failure of the header read leaves the outputs alone -/

/-- C19: whenever `libesedb_io_handle_read_file_header` returns -1, the io
handle (its format version and format revision with it) and the caller's
page size are what they were before the call. -/
theorem read_file_header_failure_is_atomic (io_handle : Option libesedb_io_handle_t)
    (page_size : Option Nat)
    (hv : (libesedb_io_handle_read_file_header io_handle page_size).value = -1) :
    (libesedb_io_handle_read_file_header io_handle page_size).io_handle = io_handle
    ∧ (libesedb_io_handle_read_file_header io_handle page_size).page_size = page_size := by
  exact read_file_header_unchanged io_handle page_size (by rw [hv]; decide)

/-- C19 (witness): the theorem at a header with a wrong signature, an io
handle with format version 3 and format revision 5 and the page size 7. -/
theorem read_file_header_failure_is_atomic_witness :
    (libesedb_io_handle_read_file_header
        (some { bound_io_handle (file_provider bad_signature_header) with
          format_version := 3, format_revision := 5 }) (some 7)).value = -1
    ∧ (libesedb_io_handle_read_file_header
        (some { bound_io_handle (file_provider bad_signature_header) with
          format_version := 3, format_revision := 5 }) (some 7)).io_handle
      = some { bound_io_handle (file_provider bad_signature_header) with
          format_version := 3, format_revision := 5 }
    ∧ (libesedb_io_handle_read_file_header
        (some { bound_io_handle (file_provider bad_signature_header) with
          format_version := 3, format_revision := 5 }) (some 7)).page_size = some 7 := by
  have hsig : (file_header_data (file_provider bad_signature_header)).take 4
      ≠ esedb_file_signature := by
    rw [file_provider_header_nil _ bad_signature_header_length]
    show ([0x00, 0xcd, 0xab, 0x89] : List uint8_t) ≠ [0xef, 0xcd, 0xab, 0x89]
    decide
  have hv : (libesedb_io_handle_read_file_header
      (some { bound_io_handle (file_provider bad_signature_header) with
        format_version := 3, format_revision := 5 }) (some 7)).value = -1 := by
    rw [read_file_header_checks _ (file_provider bad_signature_header) 7 rfl
      (file_provider_seek _) (file_provider_read_count_nil _ bad_signature_header_length),
      if_pos hsig]
  exact ⟨hv, read_file_header_failure_is_atomic _ _ hv⟩

/-! ## Retry after a failed open -/

/-- C13 (counterexample): the open of the initialized file over a header
with a wrong signature returns -1; the retry on the same file handle with a
provider over `example_database` returns -1 with the value-already-set error,
although the open of this provider on a fresh handle returns 1. -/
theorem retry_after_failed_open_fails :
    (libesedb_file_open_file_io_handle false 0 initialized_file
        (some (file_provider bad_signature_header)) LIBESEDB_FLAG_READ).map
        (fun r => r.value) = some (-1)
    ∧ ((libesedb_file_open_file_io_handle false 0 initialized_file
          (some (file_provider bad_signature_header)) LIBESEDB_FLAG_READ).bind
        (fun r => libesedb_file_open_file_io_handle false 0 r.state
          (some (file_provider example_database)) LIBESEDB_FLAG_READ)).map
        (fun r => (r.value, error_kinds r.error))
      = some (-1, [(.RUNTIME_DOMAIN, .RUNTIME_ERROR_VALUE_ALREADY_SET),
          (.IO_DOMAIN, .IO_ERROR_OPEN_FAILED)])
    ∧ (libesedb_file_open_file_io_handle false 0 initialized_file
        (some (file_provider example_database)) LIBESEDB_FLAG_READ).map
        (fun r => r.value) = some 1 := by
  have hacc : ¬ header_accepted (file_provider bad_signature_header) := by
    intro h
    have hsig := h.2.2.1
    rw [file_provider_header_nil _ bad_signature_header_length] at hsig
    exact absurd hsig (by
      show ([0x00, 0xcd, 0xab, 0x89] : List uint8_t) ≠ [0xef, 0xcd, 0xab, 0x89]
      decide)
  obtain ⟨r, hr, hv, hs, _⟩ := open_file_io_handle_header_rejected false 0
    (file_provider bad_signature_header) rfl (file_provider_seek _)
    (file_provider_read_count_nil _ bad_signature_header_length) hacc
  refine ⟨?_, ?_, ?_⟩
  · rw [hr, Option.map_some', hv]
  · rw [hr, Option.some_bind, hs,
      open_file_io_handle_already_bound false 0 _ _ (file_provider bad_signature_header) _ _
        rfl rfl (by decide) (by decide)]
    rfl
  · rw [open_file_io_handle_read false 0 _ _ (by decide) (by decide) rfl,
      open_read_no_debug 0 _ _ _ rfl rfl example_database_accepted]
    rfl

/-- C13 (amended): after `libesedb_file_open_file_io_handle` has failed on
the initialized file because the signature or the checksum of the header did
not match, the io handle of the file is still bound to the provider of the
failed call, which was opened and is not closed; a second call on the same
file handle with another provider returns -1 with the value-already-set
error, invokes no provider operation and leaves the file as it is. -/
theorem failed_open_keeps_provider_bound (debug : Bool) (fuel fuel2 : Nat)
    (p q : libbfio_handle_t) (hopen : p.open_result LIBBFIO_FLAG_READ = 1)
    (hseek : p.seek_offset_result 0 ≠ -1) (hread : p.read_count = 4096)
    (hbad : ¬ ((file_header_data p).take 4 = [0xef, 0xcd, 0xab, 0x89]
      ∧ field_32bit (file_header_data p) 4
        = calculate_xor32 ((file_header_data p).drop 4) 0x89abcdef)) :
    ∃ r, libesedb_file_open_file_io_handle debug fuel initialized_file (some p)
          LIBESEDB_FLAG_READ = some r
      ∧ r.value = -1
      ∧ (r.state.bind (fun f => f.io_handle)).bind (fun h => h.file_io_handle) = some p
      ∧ r.events = [.handle_open LIBBFIO_FLAG_READ, .seek_offset 0, .read 4096]
      ∧ libesedb_file_open_file_io_handle debug fuel2 r.state (some q) LIBESEDB_FLAG_READ
        = some ⟨-1, r.state, [⟨.RUNTIME_DOMAIN, .RUNTIME_ERROR_VALUE_ALREADY_SET,
            "libesedb_io_handle_open: invalid io handle - file io handle already set.", []⟩,
            ⟨.IO_DOMAIN, .IO_ERROR_OPEN_FAILED,
              "libesedb_file_open_file_io_handle: unable to open file handle.", []⟩], []⟩ := by
  have hacc : ¬ header_accepted p := fun h => hbad ⟨h.2.2.1, h.2.2.2⟩
  obtain ⟨r, hr, hv, hs, he⟩ :=
    open_file_io_handle_header_rejected debug fuel p hopen hseek hread hacc
  refine ⟨r, hr, hv, ?_, he, ?_⟩
  · rw [hs]
    rfl
  · rw [hs]
    exact open_file_io_handle_already_bound debug fuel2 _ _ p q _ rfl rfl
      (by decide) (by decide)

/-- C13 (witness): the theorem at the provider over `bad_signature_header`
and the retry with the provider over `example_database`. -/
theorem failed_open_keeps_provider_bound_witness :
    (file_provider bad_signature_header).open_result LIBBFIO_FLAG_READ = 1
    ∧ (file_provider bad_signature_header).seek_offset_result 0 ≠ -1
    ∧ (file_provider bad_signature_header).read_count = 4096
    ∧ ¬ ((file_header_data (file_provider bad_signature_header)).take 4
          = [0xef, 0xcd, 0xab, 0x89]
        ∧ field_32bit (file_header_data (file_provider bad_signature_header)) 4
          = calculate_xor32 ((file_header_data (file_provider bad_signature_header)).drop 4)
              0x89abcdef)
    ∧ ∃ r, libesedb_file_open_file_io_handle false 0 initialized_file
          (some (file_provider bad_signature_header)) LIBESEDB_FLAG_READ = some r
      ∧ r.value = -1
      ∧ (r.state.bind (fun f => f.io_handle)).bind (fun h => h.file_io_handle)
        = some (file_provider bad_signature_header)
      ∧ r.events = [.handle_open LIBBFIO_FLAG_READ, .seek_offset 0, .read 4096]
      ∧ libesedb_file_open_file_io_handle false 0 r.state
          (some (file_provider example_database)) LIBESEDB_FLAG_READ
        = some ⟨-1, r.state, [⟨.RUNTIME_DOMAIN, .RUNTIME_ERROR_VALUE_ALREADY_SET,
            "libesedb_io_handle_open: invalid io handle - file io handle already set.", []⟩,
            ⟨.IO_DOMAIN, .IO_ERROR_OPEN_FAILED,
              "libesedb_file_open_file_io_handle: unable to open file handle.", []⟩], []⟩ := by
  have hbad : ¬ ((file_header_data (file_provider bad_signature_header)).take 4
        = [0xef, 0xcd, 0xab, 0x89]
      ∧ field_32bit (file_header_data (file_provider bad_signature_header)) 4
        = calculate_xor32 ((file_header_data (file_provider bad_signature_header)).drop 4)
            0x89abcdef) := by
    rintro ⟨hsig, _⟩
    rw [file_provider_header_nil _ bad_signature_header_length] at hsig
    exact absurd hsig (by
      show ([0x00, 0xcd, 0xab, 0x89] : List uint8_t) ≠ [0xef, 0xcd, 0xab, 0x89]
      decide)
  exact ⟨rfl, file_provider_seek _, file_provider_read_count_nil _ bad_signature_header_length,
    hbad, failed_open_keeps_provider_bound false 0 0 (file_provider bad_signature_header)
      (file_provider example_database) rfl (file_provider_seek _)
      (file_provider_read_count_nil _ bad_signature_header_length) hbad⟩

/-- A successful `libesedb_file_open_read` leaves the file with the format
version and revision of the header in its io handle, and the rest as
before. -/
theorem open_read_state_of_success (debug : Bool) (fuel : Nat) (f : libesedb_internal_file_t)
    (h : libesedb_io_handle_t) (p : libbfio_handle_t) (hf : f.io_handle = some h)
    (hp : h.file_io_handle = some p) (r : outcome (Option libesedb_internal_file_t))
    (hr : libesedb_file_open_read debug fuel (some f) = some r) (hv : r.value = 1) :
    r.state = some (file_after_header f h p) := by
  by_cases hacc : header_accepted p
  · cases debug with
    | false =>
        rw [open_read_no_debug fuel f h p hf hp hacc] at hr
        rw [← Option.some.inj hr]
    | true =>
        by_cases hsize : p.get_size_result = 1
        · rw [open_read_debug fuel f h p hf hp hacc hsize] at hr
          split at hr
          · exact absurd hr (by simp)
          · split_ifs at hr
            · rw [← Option.some.inj hr] at hv
              exact absurd (show (-1 : Int) = 1 from hv) (by decide)
            · rw [← Option.some.inj hr]
        · simp only [libesedb_file_open_read, hf,
            read_file_header_of_accepted h p 0 hp hacc, hp] at hr
          simp [hsize] at hr
          rw [← hr] at hv
          exact absurd (show (-1 : Int) = 1 from hv) (by decide)
  · rw [open_read_header_rejected debug fuel f h p hf hp hacc] at hr
    rw [← Option.some.inj hr] at hv
    exact absurd (show (-1 : Int) = 1 from hv) (by decide)

/-- A successful `libesedb_file_open_file_io_handle` on the initialized file
leaves the io handle bound to the provider, with the ownership flag 0. -/
theorem open_file_io_handle_state_of_success (debug : Bool) (fuel : Nat)
    (p : libbfio_handle_t) (flags : Int) (r : outcome (Option libesedb_internal_file_t))
    (hr : libesedb_file_open_file_io_handle debug fuel initialized_file (some p) flags = some r)
    (hv : r.value = 1) :
    r.state = some (file_after_header (file_bound_to p) (bound_io_handle p) p) := by
  by_cases hflags : bit_and flags LIBESEDB_FLAG_READ = LIBESEDB_FLAG_READ
      ∧ bit_and flags LIBESEDB_FLAG_WRITE ≠ LIBESEDB_FLAG_WRITE
  · by_cases hopen : p.open_result LIBBFIO_FLAG_READ = 1
    · rw [open_file_io_handle_read debug fuel p flags hflags.1 hflags.2 hopen] at hr
      cases hr2 : libesedb_file_open_read debug fuel (some (file_bound_to p)) with
      | none =>
          rw [hr2] at hr
          exact absurd hr (by simp)
      | some r2 =>
          rw [hr2] at hr
          by_cases hv2 : r2.value = 1
          · have hs := open_read_state_of_success debug fuel (file_bound_to p)
              (bound_io_handle p) p rfl rfl r2 hr2 hv2
            simp only [hv2, ne_eq, not_true_eq_false, if_false] at hr
            rw [← Option.some.inj hr]
            exact hs
          · simp only [ne_eq, hv2, not_false_eq_true, if_true] at hr
            rw [← Option.some.inj hr] at hv
            exact absurd (show (-1 : Int) = 1 from hv) (by decide)
    · rw [initialized_file_eq p] at hr
      simp only [libesedb_file_open_file_io_handle, hflags.1, hflags.2,
        libesedb_io_handle_open] at hr
      simp [hopen] at hr
      rw [← hr] at hv
      exact absurd (show (-1 : Int) = 1 from hv) (by decide)
  · obtain ⟨r', hr', hv', _, _⟩ :=
      open_file_io_handle_flags_rejected debug fuel _ p flags hflags
    rw [initialized_file_eq p, hr'] at hr
    rw [← Option.some.inj hr, hv'] at hv
    exact absurd (show (-1 : Int) = 1 from hv) (by decide)

/-- A successful `libesedb_file_open` on the initialized file leaves the io
handle bound to the provider of the file name, with the ownership flag 1. -/
theorem file_open_state_of_success (debug : Bool) (fuel : Nat) (bfio : libbfio_file_t)
    (name : String) (flags : Int) (r : outcome (Option libesedb_internal_file_t))
    (hr : libesedb_file_open debug fuel bfio initialized_file (some name) flags = some r)
    (hv : r.value = 1) :
    r.state = some { file_bound_to (bfio.handle name) with
      io_handle := some { bound_io_handle (bfio.handle name) with
        handle_created_in_library := 1
        format_version := field_32bit (file_header_data (bfio.handle name)) 8
        format_revision := field_32bit (file_header_data (bfio.handle name)) 232 } } := by
  obtain ⟨f0, hf0⟩ : ∃ f0, initialized_file = some f0 :=
    ⟨_, initialized_file_eq (bfio.handle name)⟩
  rw [hf0] at hr
  simp only [libesedb_file_open] at hr
  split_ifs at hr with h1 h2 h3 h4 h5
  · rw [← Option.some.inj hr] at hv
    exact absurd (show (-1 : Int) = 1 from hv) (by decide)
  · rw [← Option.some.inj hr] at hv
    exact absurd (show (-1 : Int) = 1 from hv) (by decide)
  · rw [← Option.some.inj hr] at hv
    exact absurd (show (-1 : Int) = 1 from hv) (by decide)
  · rw [← Option.some.inj hr] at hv
    exact absurd (show (-1 : Int) = 1 from hv) (by decide)
  · rw [← Option.some.inj hr] at hv
    exact absurd (show (-1 : Int) = 1 from hv) (by decide)
  · rw [← hf0] at hr
    cases hr2 : libesedb_file_open_file_io_handle debug fuel initialized_file
        (some (bfio.handle name)) flags with
    | none =>
        rw [hr2] at hr
        exact absurd hr (by simp)
    | some r2 =>
        rw [hr2] at hr
        by_cases hv2 : r2.value = 1
        · have hs := open_file_io_handle_state_of_success debug fuel _ flags r2 hr2 hv2
          simp only [hv2, ne_eq, not_true_eq_false, if_false] at hr
          rw [← Option.some.inj hr, hs]
          rfl
        · simp only [ne_eq, hv2, not_false_eq_true, if_true] at hr
          rw [← Option.some.inj hr] at hv
          exact absurd (show (-1 : Int) = 1 from hv) (by decide)

/-- The provider operations of `libesedb_file_free` are those of
`libesedb_io_handle_free` on its io handle. -/
theorem file_free_events (lib : library_results) (f : libesedb_internal_file_t)
    (h : libesedb_io_handle_t) (hf : f.io_handle = some h) :
    (libesedb_file_free lib (some (some f))).events
      = (libesedb_io_handle_free (some (some h))).events := by
  simp only [libesedb_file_free, hf]
  split_ifs <;> rfl

/-- `libesedb_io_handle_free` with the ownership flag 0 invokes nothing. -/
theorem io_handle_free_external (h : libesedb_io_handle_t)
    (h0 : h.handle_created_in_library = 0) :
    libesedb_io_handle_free (some (some h)) = ⟨1, some none, [], []⟩ := by
  simp [libesedb_io_handle_free, h0]

/-- `libesedb_io_handle_free` with an ownership flag other than 0 frees the
bound provider. -/
theorem io_handle_free_owned (h : libesedb_io_handle_t) (p : libbfio_handle_t)
    (h1 : h.handle_created_in_library ≠ 0) (hp : h.file_io_handle = some p) :
    (libesedb_io_handle_free (some (some h))).events = [.handle_free] := by
  simp only [libesedb_io_handle_free, h1, hp]
  split_ifs <;> rfl

/-- `libesedb_io_handle_close` closes the bound provider. -/
theorem io_handle_close_bound (debug : Bool) (lib : library_results)
    (h : libesedb_io_handle_t) (p : libbfio_handle_t) (hp : h.file_io_handle = some p) :
    (libesedb_io_handle_close debug lib (some h)).events = [.handle_close]
    ∧ (libesedb_io_handle_close debug lib (some h)).state = some h := by
  simp only [libesedb_io_handle_close, hp]
  split_ifs <;> exact ⟨rfl, rfl⟩

/-- The provider operations of `libesedb_file_close` are those of
`libesedb_io_handle_close` on its io handle. -/
theorem file_close_events (debug : Bool) (lib : library_results)
    (f : libesedb_internal_file_t) (h : libesedb_io_handle_t) (hf : f.io_handle = some h) :
    (libesedb_file_close debug lib (some f)).events
      = (libesedb_io_handle_close debug lib (some h)).events := by
  simp only [libesedb_file_close, hf]
  split_ifs <;> rfl

/-! ## Who closes and who frees the provider -/

/-- C14 (counterexample): after `libesedb_file_open_file_io_handle` has
opened the initialized file over an externally supplied provider,
`libesedb_file_close` invokes the close of this provider. -/
theorem close_closes_external_provider :
    (libesedb_file_open_file_io_handle false 0 initialized_file
        (some (file_provider example_database)) LIBESEDB_FLAG_READ).map
      (fun r => (r.value,
        (r.state.bind (fun f => f.io_handle)).map (fun h => h.handle_created_in_library),
        (libesedb_file_close false example_library_results r.state).events))
      = some (1, some 0, [.handle_close]) := by
  rw [open_file_io_handle_read false 0 _ _ (by decide) (by decide) rfl,
    open_read_no_debug 0 _ _ _ rfl rfl example_database_accepted]
  rfl

/-- C14 (amended): after a successful `libesedb_file_open_file_io_handle` on
the initialized file the provider is bound with the ownership flag 0, and
then `libesedb_file_free` and `libesedb_io_handle_free` invoke no operation
of the provider (its free neither), but `libesedb_file_close` and
`libesedb_io_handle_close` invoke its close, whatever the flag; after a
successful `libesedb_file_open` the flag is 1 and `libesedb_file_free`
invokes the free of the provider, and nothing else. -/
theorem external_provider_closed_not_freed (debug : Bool) (fuel : Nat) (lib : library_results)
    (p : libbfio_handle_t) (flags : Int) (r : outcome (Option libesedb_internal_file_t))
    (hr : libesedb_file_open_file_io_handle debug fuel initialized_file (some p) flags = some r)
    (hv : r.value = 1) :
    (∃ f h, r.state = some f ∧ f.io_handle = some h ∧ h.file_io_handle = some p
      ∧ h.handle_created_in_library = 0
      ∧ (libesedb_file_free lib (some (some f))).events = []
      ∧ (libesedb_io_handle_free (some (some h))).events = []
      ∧ (libesedb_file_close debug lib (some f)).events = [.handle_close]
      ∧ (libesedb_io_handle_close debug lib (some h)).events = [.handle_close])
    ∧ (∀ (bfio : libbfio_file_t) (name : String)
        (r2 : outcome (Option libesedb_internal_file_t)),
        libesedb_file_open debug fuel bfio initialized_file (some name) flags = some r2 →
        r2.value = 1 →
        ∃ f h, r2.state = some f ∧ f.io_handle = some h
          ∧ h.file_io_handle = some (bfio.handle name) ∧ h.handle_created_in_library = 1
          ∧ (libesedb_file_free lib (some (some f))).events = [.handle_free]
          ∧ (libesedb_file_close debug lib (some f)).events = [.handle_close]) := by
  constructor
  · have hs := open_file_io_handle_state_of_success debug fuel p flags r hr hv
    refine ⟨_, _, hs, rfl, rfl, rfl, ?_, ?_, ?_, ?_⟩
    · rw [file_free_events lib _ _ rfl, io_handle_free_external _ rfl]
    · rw [io_handle_free_external _ rfl]
    · rw [file_close_events debug lib _ _ rfl]
      exact (io_handle_close_bound debug lib _ p rfl).1
    · exact (io_handle_close_bound debug lib _ p rfl).1
  · intro bfio name r2 hr2 hv2
    have hs := file_open_state_of_success debug fuel bfio name flags r2 hr2 hv2
    refine ⟨_, _, hs, rfl, rfl, rfl, ?_, ?_⟩
    · rw [file_free_events lib _ _ rfl]
      exact io_handle_free_owned _ (bfio.handle name) (show (1 : Int) ≠ 0 by decide) rfl
    · rw [file_close_events debug lib _ _ rfl]
      exact (io_handle_close_bound debug lib _ (bfio.handle name) rfl).1

/-- C14 (witness): the theorem at the open of the initialized file over
`example_database`. -/
theorem external_provider_closed_not_freed_witness :
    libesedb_file_open_file_io_handle false 0 initialized_file
        (some (file_provider example_database)) LIBESEDB_FLAG_READ = some example_opened
    ∧ example_opened.value = 1
    ∧ ∃ f h, example_opened.state = some f ∧ f.io_handle = some h
      ∧ h.file_io_handle = some (file_provider example_database)
      ∧ h.handle_created_in_library = 0
      ∧ (libesedb_file_free example_library_results (some (some f))).events = []
      ∧ (libesedb_io_handle_free (some (some h))).events = []
      ∧ (libesedb_file_close false example_library_results (some f)).events = [.handle_close]
      ∧ (libesedb_io_handle_close false example_library_results (some h)).events
        = [.handle_close] := by
  have hr : libesedb_file_open_file_io_handle false 0 initialized_file
      (some (file_provider example_database)) LIBESEDB_FLAG_READ = some example_opened := by
    rw [open_file_io_handle_read false 0 _ _ (by decide) (by decide) rfl,
      open_read_no_debug 0 _ _ _ rfl rfl example_database_accepted]
    rfl
  exact ⟨hr, rfl, (external_provider_closed_not_freed false 0 example_library_results
    (file_provider example_database) LIBESEDB_FLAG_READ example_opened hr rfl).1⟩

/-! ## Closing without a provider -/

theorem io_handle_close_unbound (debug : Bool) (lib : library_results)
    (h : libesedb_io_handle_t) (hp : h.file_io_handle = none) :
    (libesedb_io_handle_close debug lib (some h)).state = some h
    ∧ (libesedb_io_handle_close debug lib (some h)).events = []
    ∧ (libesedb_io_handle_close debug lib (some h)).value
      = if lib.close_null_result ≠ 0 then -1 else 0 := by
  simp only [libesedb_io_handle_close, hp]
  split_ifs <;> exact ⟨rfl, rfl, rfl⟩

theorem file_close_unbound (debug : Bool) (lib : library_results)
    (f : libesedb_internal_file_t) (h : libesedb_io_handle_t) (hf : f.io_handle = some h)
    (hp : h.file_io_handle = none) :
    (libesedb_file_close debug lib (some f)).state = some f
    ∧ (libesedb_file_close debug lib (some f)).events = []
    ∧ (libesedb_file_close debug lib (some f)).value
      = if lib.close_null_result ≠ 0 then -1 else 0 := by
  have hc := io_handle_close_unbound debug lib h hp
  have hstate : (libesedb_file_close debug lib (some f)).state
      = some { f with io_handle := (libesedb_io_handle_close debug lib (some h)).state } := by
    simp only [libesedb_file_close, hf]
    split_ifs <;> rfl
  have hevents : (libesedb_file_close debug lib (some f)).events
      = (libesedb_io_handle_close debug lib (some h)).events :=
    file_close_events debug lib f h hf
  have hvalue : (libesedb_file_close debug lib (some f)).value
      = (libesedb_io_handle_close debug lib (some h)).value := by
    simp only [libesedb_file_close, hf]
    split_ifs <;> rfl
  refine ⟨?_, ?_, ?_⟩
  · rw [hstate, hc.1, ← hf]
  · rw [hevents, hc.2.1]
  · rw [hvalue, hc.2.2]

/-- C15: on an io handle without a bound provider `libesedb_io_handle_close`
invokes no provider operation and leaves the io handle as it is, and so does
`libesedb_file_close` on the initialized file; a call after any number of
calls has the outcome of the first call.  The value returned is the one
`libbfio_handle_close` gives for the NULL handle it is handed: 0, or -1 (with
the close-failed error) when that value is not 0. -/
theorem close_without_provider_is_idempotent (debug : Bool) (lib : library_results)
    (h : libesedb_io_handle_t) (hp : h.file_io_handle = none) (n : Nat) :
    (libesedb_io_handle_close debug lib (some h)).state = some h
    ∧ (libesedb_io_handle_close debug lib (some h)).events = []
    ∧ libesedb_io_handle_close debug lib
        (Nat.iterate (fun s => (libesedb_io_handle_close debug lib s).state) n (some h))
      = libesedb_io_handle_close debug lib (some h)
    ∧ (libesedb_io_handle_close debug lib (some h)).value
      = (if lib.close_null_result ≠ 0 then -1 else 0)
    ∧ (libesedb_file_close debug lib initialized_file).state = initialized_file
    ∧ (libesedb_file_close debug lib initialized_file).events = []
    ∧ libesedb_file_close debug lib
        (Nat.iterate (fun s => (libesedb_file_close debug lib s).state) n initialized_file)
      = libesedb_file_close debug lib initialized_file
    ∧ (libesedb_file_close debug lib initialized_file).value
      = (if lib.close_null_result ≠ 0 then -1 else 0) := by
  have hc := io_handle_close_unbound debug lib h hp
  have hf := file_close_unbound debug lib
    { page_table := some [], io_handle := some ⟨none, 0, 0, 0⟩,
      ascii_codepage := LIBESEDB_CODEPAGE_WINDOWS_1250, abort := 0 } ⟨none, 0, 0, 0⟩ rfl rfl
  have hinit : initialized_file = some
      { page_table := some [], io_handle := some ⟨none, 0, 0, 0⟩,
        ascii_codepage := LIBESEDB_CODEPAGE_WINDOWS_1250, abort := 0 } := rfl
  rw [← hinit] at hf
  refine ⟨hc.1, hc.2.1, ?_, hc.2.2, hf.1, hf.2.1, ?_, hf.2.2⟩
  · rw [Function.iterate_fixed hc.1]
  · rw [Function.iterate_fixed hf.1]

/-- C15 (witness): the theorem at the io handle of the initialized file and
three earlier calls. -/
theorem close_without_provider_is_idempotent_witness :
    (⟨none, 0, 0, 0⟩ : libesedb_io_handle_t).file_io_handle = none
    ∧ (libesedb_io_handle_close false example_library_results
        (some ⟨none, 0, 0, 0⟩)).state = some ⟨none, 0, 0, 0⟩
    ∧ (libesedb_io_handle_close false example_library_results (some ⟨none, 0, 0, 0⟩)).events = []
    ∧ libesedb_io_handle_close false example_library_results
        (Nat.iterate (fun s => (libesedb_io_handle_close false example_library_results s).state)
          3 (some ⟨none, 0, 0, 0⟩))
      = libesedb_io_handle_close false example_library_results (some ⟨none, 0, 0, 0⟩) :=
  ⟨rfl,
    (close_without_provider_is_idempotent false example_library_results ⟨none, 0, 0, 0⟩ rfl 3).1,
    (close_without_provider_is_idempotent false example_library_results
      ⟨none, 0, 0, 0⟩ rfl 3).2.1,
    (close_without_provider_is_idempotent false example_library_results
      ⟨none, 0, 0, 0⟩ rfl 3).2.2.1⟩

/-- With the page size 0 the offset never advances: when the page at the
offset is inside the file and can be read, the loop does not end, whatever
the fuel. -/
theorem open_read_loop_page_size_zero (p : libbfio_handle_t) (file_size : Nat) (off : Int)
    (hlo : -9223372036854775808 ≤ off) (hlt : off < off64_t file_size)
    (hok : p.page_read_result off 0 = 1) :
    ∀ (fuel : Nat) (events : List io_event),
      libesedb_file_open_read_loop p 0 file_size fuel off events = none := by
  intro fuel
  induction fuel with
  | zero => intro events; rfl
  | succ f ih =>
      intro events
      have hS := off64_t_lt file_size
      have hnext : off64_t (off + ((0 : Nat) : Int)) = off := by
        rw [Nat.cast_zero, add_zero]
        exact off64_t_eq off hlo (by omega)
      rw [libesedb_file_open_read_loop, if_pos hlt, if_neg (by simp [hok]), hnext]
      exact ih _

/-- With a page size other than 0 and a file size that the offset cannot
overflow, the loop ends once the fuel exceeds the distance to the file size,
whatever the page reads return. -/
theorem open_read_loop_returns (p : libbfio_handle_t) (page_size file_size : Nat)
    (hps : 0 < page_size) (hsize : off64_t file_size + page_size ≤ 9223372036854775808) :
    ∀ (fuel : Nat) (off : Int) (events : List io_event),
      -9223372036854775808 ≤ off → (off64_t file_size - off).toNat < fuel →
      ∃ r, libesedb_file_open_read_loop p page_size file_size fuel off events = some r := by
  intro fuel
  induction fuel with
  | zero => intro off events _ hf; omega
  | succ f ih =>
      intro off events hlo hf
      by_cases h0 : off < off64_t file_size
      · by_cases hok : p.page_read_result off page_size = 1
        · have hnext : off64_t (off + page_size) = off + page_size := by
            apply off64_t_eq <;> omega
          rw [libesedb_file_open_read_loop, if_pos h0, if_neg (by simp [hok]), hnext]
          exact ih _ _ (by omega) (by omega)
        · exact ⟨_, by rw [libesedb_file_open_read_loop, if_pos h0, if_pos hok]⟩
      · exact ⟨_, by rw [libesedb_file_open_read_loop, if_neg h0]⟩

theorem zero_page_size_header_accepted : header_accepted (file_provider (valid_header 0 0 0)) :=
  valid_header_accepted_nil 0 0 0 (by decide) (by decide)

theorem zero_page_size_header_page_size :
    header_page_size (file_provider (valid_header 0 0 0)) = 0 := by
  have := valid_header_page_size 0 0 0 (by decide) []
  rwa [List.append_nil] at this

theorem zero_page_size_header_size : (file_provider (valid_header 0 0 0)).file_size = 4096 :=
  valid_header_length 0 0 0

/-! ## Termination of the page walk -/

/-- C17 (code defect): the file of 4096 bytes `valid_header 0 0 0`, whose
header is accepted and carries the page size 0, on a provider every page
read of which succeeds: in the debug build `libesedb_file_open_read` does not
return, whatever the fuel, because `file_offset += page_size` leaves the
offset at 0, below the file size. -/
theorem page_walk_does_not_end_for_page_size_zero :
    (libesedb_io_handle_read_file_header
        (some (bound_io_handle (file_provider (valid_header 0 0 0)))) (some 0)).value = 1
    ∧ (libesedb_io_handle_read_file_header
        (some (bound_io_handle (file_provider (valid_header 0 0 0)))) (some 0)).page_size
      = some 0
    ∧ ∀ fuel, libesedb_file_open_read true fuel
        (some (file_bound_to (file_provider (valid_header 0 0 0)))) = none := by
  refine ⟨?_, ?_, ?_⟩
  · rw [valid_header_read_nil 0 0 0 (by decide) (by decide)]
  · rw [valid_header_read_nil 0 0 0 (by decide) (by decide)]
  · intro fuel
    rw [open_read_debug fuel _ _ _ rfl rfl zero_page_size_header_accepted rfl,
      zero_page_size_header_page_size, zero_page_size_header_size,
      open_read_loop_page_size_zero _ 4096 _ (by decide) (by
        rw [off64_t_eq _ (by decide) (by decide)]
        decide) rfl]

theorem page_count_spec (page_size file_size : Nat) (hps : 0 < page_size) (m : Nat) :
    m < page_count page_size file_size ↔ 2 * page_size + m * page_size < file_size := by
  unfold page_count
  rw [Nat.lt_iff_add_one_le, Nat.le_div_iff_mul_le hps, Nat.add_mul, Nat.one_mul]
  generalize m * page_size = a
  omega

/-- The page walk in the debug build, for a page size other than 0 and a
file size that the offset cannot overflow. -/
theorem open_read_walk (fuel : Nat) (f : libesedb_internal_file_t)
    (h : libesedb_io_handle_t) (p : libbfio_handle_t) (hf : f.io_handle = some h)
    (hp : h.file_io_handle = some p) (hacc : header_accepted p)
    (hget : p.get_size_result = 1) (hps : 0 < header_page_size p)
    (hsize : (p.file_size : Int) + header_page_size p ≤ 9223372036854775808)
    (hok : ∀ m : Nat, 2 * header_page_size p + m * header_page_size p < p.file_size →
      p.page_read_result (2 * (header_page_size p : Int) + m * header_page_size p)
        (header_page_size p) = 1)
    (hfuel : page_count (header_page_size p) p.file_size < fuel) :
    libesedb_file_open_read true fuel (some f)
      = some ⟨1, some (file_after_header f h p), [],
          [.seek_offset 0, .read 4096, .get_size]
            ++ page_reads (2 * header_page_size p) (header_page_size p)
                (page_count (header_page_size p) p.file_size)⟩ := by
  have hS : off64_t p.file_size = p.file_size := off64_t_eq _ (by omega) (by omega)
  have hspec := page_count_spec (header_page_size p) p.file_size hps
  have cast : ∀ m : Nat, 2 * header_page_size p + m * header_page_size p < p.file_size →
      2 * (header_page_size p : Int) + m * header_page_size p < p.file_size := by
    intro m hm
    have : ((2 * header_page_size p + m * header_page_size p : Nat) : Int)
        < (p.file_size : Int) := by exact_mod_cast hm
    push_cast at this
    exact this
  apply open_read_pages fuel _ f h p hf hp hacc hget hfuel
  · -- the offset after the last page does not overflow
    rcases Nat.eq_zero_or_pos (page_count (header_page_size p) p.file_size) with h0 | hpos
    · rw [h0]
      have := field_32bit_lt (file_header_data p) 236
      have hlt : header_page_size p < 2 ^ 32 := this
      simp only [Nat.cast_zero, zero_mul, add_zero]
      omega
    · obtain ⟨k, hk⟩ : ∃ k, page_count (header_page_size p) p.file_size = k + 1 :=
        ⟨_, (Nat.succ_pred_eq_of_pos hpos).symm⟩
      have hlast := cast k ((hspec k).mp (by omega))
      rw [hk]
      push_cast
      have e : ((k : Int) + 1) * (header_page_size p : Int)
          = (k : Int) * header_page_size p + header_page_size p := by ring
      rw [e]
      omega
  · intro m hm
    rw [hS]
    exact cast m ((hspec m).mp hm)
  · rw [hS]
    intro hlt
    have : 2 * header_page_size p
        + page_count (header_page_size p) p.file_size * header_page_size p < p.file_size := by
      exact_mod_cast hlt
    exact absurd ((hspec _).mpr this) (by omega)
  · intro m hm
    exact hok m ((hspec m).mp hm)

theorem huge_file_provider_accepted : header_accepted huge_file_provider :=
  header_accepted_congr (file_provider (valid_header 0 0 4096)) huge_file_provider rfl rfl rfl
    (valid_header_accepted_nil 0 0 4096 (by decide) (by decide))

theorem huge_file_provider_page_size : header_page_size huge_file_provider = 4096 := by
  unfold header_page_size
  rw [file_header_data_congr (file_provider (valid_header 0 0 4096)) huge_file_provider rfl]
  have := valid_header_page_size 0 0 4096 (by decide) []
  rw [List.append_nil] at this
  exact this

theorem partial_page_database_accepted :
    header_accepted (file_provider partial_page_database) :=
  valid_header_accepted 0 0 4096 (by decide) (by decide) _

theorem partial_page_database_page_size :
    header_page_size (file_provider partial_page_database) = 4096 :=
  valid_header_page_size 0 0 4096 (by decide) _

theorem partial_page_database_size : (file_provider partial_page_database).file_size = 12292 := by
  show (valid_header 0 0 4096 ++ List.replicate (4 * 2049) 0).length = 12292
  rw [List.length_append, valid_header_length, List.length_replicate]

/-! ## The offsets of the page walk -/

/-- C18 (counterexample): with the page size 4096 and every page readable,
the build without debug output reads no page of `example_database`, which
has a page at offset 8192; and in the debug build no page is read when the
provider reports the file size 2^63, which as `off64_t` is negative, although
`2 * 4096 + 0 * 4096` is below the file size. -/
theorem page_walk_reads_no_page :
    (libesedb_file_open_read false 2 (some (file_bound_to (file_provider example_database)))).map
        (fun r => (r.value, r.events)) = some (1, [.seek_offset 0, .read 4096])
    ∧ 2 * 4096 + 0 * 4096 < (file_provider example_database).file_size
    ∧ (libesedb_file_open_read true 2 (some (file_bound_to huge_file_provider))).map
        (fun r => (r.value, r.events)) = some (1, [.seek_offset 0, .read 4096, .get_size])
    ∧ 2 * 4096 + 0 * 4096 < huge_file_provider.file_size
    ∧ header_page_size huge_file_provider = 4096 := by
  have hoff : off64_t ((9223372036854775808 : Nat) : Int) = -9223372036854775808 := by
    unfold off64_t
    omega
  refine ⟨?_, ?_, ?_, ?_, huge_file_provider_page_size⟩
  · rw [open_read_no_debug 2 _ _ _ rfl rfl example_database_accepted]
    rfl
  · rw [example_database_size]
    decide
  · rw [open_read_pages 2 0 _ _ huge_file_provider rfl rfl huge_file_provider_accepted rfl
      (by decide) (by rw [huge_file_provider_page_size]; decide)
      (fun m hm => absurd hm (by omega))
      (by
        rw [huge_file_provider_page_size]
        show ¬ (2 * ((4096 : Nat) : Int) + ((0 : Nat) : Int) * ((4096 : Nat) : Int)
          < off64_t ((9223372036854775808 : Nat) : Int))
        rw [hoff]
        decide)
      (fun m hm => absurd hm (by omega))]
    rfl
  · show 2 * 4096 + 0 * 4096 < 9223372036854775808
    decide

/-- C18 (amended): in the debug build, for every page size `p > 0` and file
size `S` with `S + p ≤ 2^63`, when the header is accepted and every page
inside the file can be read, `libesedb_file_open_read` returns 1 after the
page reads at the offsets `2 * p + n * p`, each with the size `p`, for
exactly the `n` with `2 * p + n * p < S`, in increasing order of `n`, and no
other page read: none at the offsets 0 and `p`, and one for a trailing
partial page. -/
theorem page_walk_offsets (fuel : Nat) (f : libesedb_internal_file_t)
    (h : libesedb_io_handle_t) (p : libbfio_handle_t) (hf : f.io_handle = some h)
    (hp : h.file_io_handle = some p) (hacc : header_accepted p)
    (hget : p.get_size_result = 1) (hps : 0 < header_page_size p)
    (hsize : (p.file_size : Int) + header_page_size p ≤ 9223372036854775808)
    (hok : ∀ m : Nat, 2 * header_page_size p + m * header_page_size p < p.file_size →
      p.page_read_result (2 * (header_page_size p : Int) + m * header_page_size p)
        (header_page_size p) = 1)
    (hfuel : page_count (header_page_size p) p.file_size < fuel) :
    (libesedb_file_open_read true fuel (some f)).map (fun r => (r.value, r.events))
      = some (1, [.seek_offset 0, .read 4096, .get_size]
          ++ (List.range (page_count (header_page_size p) p.file_size)).map
              (fun (n : Nat) => io_event.page_read
                (2 * (header_page_size p : Int) + (n : Int) * (header_page_size p : Int))
                (header_page_size p)))
    ∧ (∀ n : Nat, n < page_count (header_page_size p) p.file_size
        ↔ 2 * header_page_size p + n * header_page_size p < p.file_size) := by
  refine ⟨?_, page_count_spec _ _ hps⟩
  rw [open_read_walk fuel f h p hf hp hacc hget hps hsize hok hfuel]
  rfl

/-- C18 (witness): the theorem at `partial_page_database`, a file of 12292
bytes: the pages at the offsets 8192 and 12288 are read, the second of which
has 4 bytes in the file. -/
theorem page_walk_offsets_witness :
    header_accepted (file_provider partial_page_database)
    ∧ 0 < header_page_size (file_provider partial_page_database)
    ∧ page_count (header_page_size (file_provider partial_page_database))
        (file_provider partial_page_database).file_size = 2
    ∧ (libesedb_file_open_read true 3
        (some (file_bound_to (file_provider partial_page_database)))).map
        (fun r => (r.value, r.events))
      = some (1, [.seek_offset 0, .read 4096, .get_size]
          ++ (List.range (page_count (header_page_size (file_provider partial_page_database))
                (file_provider partial_page_database).file_size)).map
              (fun (n : Nat) => io_event.page_read
                (2 * (header_page_size (file_provider partial_page_database) : Int)
                  + (n : Int) * (header_page_size (file_provider partial_page_database) : Int))
                (header_page_size (file_provider partial_page_database))))
    ∧ (List.range 2).map (fun (n : Nat) => io_event.page_read
          (2 * ((4096 : Nat) : Int) + (n : Int) * ((4096 : Nat) : Int)) 4096)
      = [.page_read 8192 4096, .page_read 12288 4096] := by
  have hps : 0 < header_page_size (file_provider partial_page_database) := by
    rw [partial_page_database_page_size]
    decide
  have hcount : page_count (header_page_size (file_provider partial_page_database))
      (file_provider partial_page_database).file_size = 2 := by
    rw [partial_page_database_page_size, partial_page_database_size]
    decide
  exact ⟨partial_page_database_accepted, hps, hcount,
    (page_walk_offsets 3 (file_bound_to (file_provider partial_page_database))
      (bound_io_handle (file_provider partial_page_database))
      (file_provider partial_page_database) rfl rfl partial_page_database_accepted rfl hps
      (by rw [partial_page_database_page_size, partial_page_database_size]; decide)
      (fun _ _ => rfl) (by rw [hcount]; decide)).1,
    by decide⟩

end Libesedb
